import Mathlib

/-!
# Human Pages MCP tool layer — verification development

Shallow embedding of the Human Pages MCP server tool layer (`tools.ts`).
Each tool handler is modelled as a pure function of the caller-supplied
argument bag and an oracle supplying the collaborator's HTTP responses in
the order the handler performs its fetches.  The handler returns the
MCP tool result (a single text block plus the `isError` flag) together
with the list of HTTP requests it issued, so that theorems can speak both
about the result a caller observes and about what was sent on the wire.

Conventions of the embedding:
* Parsed JSON bodies are modelled by the `Json` inductive; property access
  on a non-object or a missing key yields `Json.null`, merging JavaScript's
  `undefined` and `null` (the source only distinguishes them through
  truthiness and `??`, both of which treat the two alike on these paths).
* JavaScript truthiness: `null`/`undefined`, `false`, `0` and `""` are
  falsy, everything else truthy.
* JSON numbers are modelled as integers; no handler performs arithmetic on
  them beyond display, and no claim involves fractional values.
* `JSON.stringify` drops object fields whose value is `undefined`; request
  bodies are therefore built with `mkBody`, which drops absent fields.
* A thrown `Error` is the `Except.error` branch; the single outer
  `try`/`catch` of the `CallToolRequestSchema` handler turns it into a
  result with text `"Error: " ++ message` and `isError := true`.
-/

namespace HumanPages

/-- Parsed JSON value, as produced by `res.json()`. -/
inductive Json where
  | null : Json
  | bool : Bool → Json
  | num : Int → Json
  | str : String → Json
  | arr : List Json → Json
  | obj : List (String × Json) → Json

/-- Property access `j.k` / `j?.k`: `null` when missing or not an object. -/
def Json.get (j : Json) (k : String) : Json :=
  match j with
  | .obj fs =>
      match fs.find? (fun p => p.1 == k) with
      | some p => p.2
      | none => .null
  | _ => .null

/-- JavaScript truthiness of a value. -/
def Json.truthy : Json → Bool
  | .null => false
  | .bool b => b
  | .num n => n != 0
  | .str s => s != ""
  | .arr _ => true
  | .obj _ => true

/-- `x ?? d` tests for null/undefined only. -/
def Json.isNull : Json → Bool
  | .null => true
  | _ => false

/-- String interpolation `\x7b$x\x7d` of a value.  Arrays are only ever
interpolated elementwise in the source (via `join`), so one level of
element display suffices. -/
def Json.toDisplay : Json → String
  | .null => "undefined"
  | .bool b => if b then "true" else "false"
  | .num n => toString n
  | .str s => s
  | .arr xs => String.intercalate (",") (xs.map (fun j =>
      match j with
      | .str s => s
      | .num n => toString n
      | .bool b => if b then "true" else "false"
      | _ => ""))
  | .obj _ => "[object Object]"

/-- `x === 's'` for a string literal. -/
def Json.eqStr (j : Json) (s : String) : Bool :=
  match j with
  | .str t => t == s
  | _ => false

/-- Read a value as a JS array (handlers only do this on response fields
documented as arrays). -/
def Json.asList (j : Json) : List Json :=
  match j with
  | .arr xs => xs
  | _ => []

/-- Numeric comparison `x > n` (false on non-numbers, as in JS for
`undefined > n`). -/
def Json.gtNum (j : Json) (n : Int) : Bool :=
  match j with
  | .num m => m > n
  | _ => false

/-- Numeric comparison `x >= n` (false on non-numbers). -/
def Json.geNum (j : Json) (n : Int) : Bool :=
  match j with
  | .num m => m ≥ n
  | _ => false

/-- `x || d` rendered to a string: the display of `x` when truthy, else `d`. -/
def jsOr (j : Json) (d : String) : String :=
  if j.truthy then j.toDisplay else d

/-- `x || y || d` rendered to a string: the display of the first truthy
value, else `d`. -/
def jsOr2 (j k : Json) (d : String) : String :=
  if j.truthy then j.toDisplay else if k.truthy then k.toDisplay else d

/-- `s || d` on an already-rendered string. -/
def orStr (s d : String) : String :=
  if s != "" then s else d

/-- `xs.join(', ')` on a JSON array. -/
def joinComma (j : Json) : String :=
  String.intercalate (", ") (j.asList.map Json.toDisplay)

/-- Display of an optional string argument interpolated into a template
(`undefined` when absent, as in JS). -/
def dispS : Option String → String
  | some s => s
  | none => "undefined"

/-- Display of an optional numeric argument interpolated into a template. -/
def dispI : Option Int → String
  | some n => toString n
  | none => "undefined"

/-- Truthiness of an optional string argument. -/
def truthyS : Option String → Bool
  | some s => s != ""
  | none => false

/-- Truthiness of an optional numeric argument. -/
def truthyI : Option Int → Bool
  | some n => n != 0
  | none => false

/-- The argument bag of a tool invocation.  MCP delivers `arguments` as an
untyped record; the fields below are exactly the keys the handlers read
(via `args?.key as T`).  An absent key is `none`. -/
structure Args where
  skill : Option String := none
  equipment : Option String := none
  language : Option String := none
  location : Option String := none
  lat : Option Int := none
  lng : Option Int := none
  radius : Option Int := none
  max_rate : Option Int := none
  available_only : Option Bool := none
  work_mode : Option String := none
  verified : Option String := none
  id : Option String := none
  name : Option String := none
  description : Option String := none
  website_url : Option String := none
  contact_email : Option String := none
  agent_id : Option String := none
  agent_key : Option String := none
  method : Option String := none
  human_id : Option String := none
  agent_name : Option String := none
  title : Option String := none
  category : Option String := none
  price_usdc : Option Int := none
  payment_mode : Option String := none
  payment_timing : Option String := none
  stream_method : Option String := none
  stream_interval : Option String := none
  stream_rate_usdc : Option Int := none
  stream_max_ticks : Option Int := none
  callback_url : Option String := none
  callback_secret : Option String := none
  job_id : Option String := none
  payment_tx_hash : Option String := none
  payment_network : Option String := none
  payment_amount : Option Int := none
  rating : Option Int := none
  comment : Option String := none
  post_url : Option String := none
  tx_hash : Option String := none
  network : Option String := none
  sender_address : Option String := none
  token : Option String := none
  content : Option String := none
  budget_usdc : Option Int := none
  required_skills : Option (List String) := none
  required_equipment : Option (List String) := none
  location_lat : Option Int := none
  location_lng : Option Int := none
  radius_km : Option Int := none
  expires_at : Option String := none
  max_applicants : Option Int := none
  page : Option Int := none
  limit : Option Int := none
  min_budget : Option Int := none
  max_budget : Option Int := none
  listing_id : Option String := none
  application_id : Option String := none

/-- `const API_BASE = process.env.API_BASE_URL || 'http://localhost:3001'`
(default value; the env override is process configuration). -/
def API_BASE : String := "http://localhost:3001"

/-- An HTTP request as issued by a handler.  `query` models the
`URLSearchParams` entries in insertion order (serialization/escaping of
the query string is transport detail). -/
structure Request where
  method : String
  url : String
  query : List (String × String) := []
  headers : List (String × String) := []
  body : Option Json := none

/-- A collaborator response: `res.ok`, `res.status` and the parsed body
`await res.json()`. -/
structure HttpRes where
  ok : Bool
  status : Nat
  body : Json

/-- The collaborator oracle: the response to the i-th fetch performed by
the current invocation. -/
def Oracle : Type := Nat → HttpRes

/-- An MCP tool result: a single text content block plus the error flag
(success paths leave `isError` unset, i.e. `false`). -/
structure ToolResult where
  text : String
  isError : Bool := false

/-- A handler outcome before the outer catch: either a value or a thrown
`Error` message, together with the requests sent. -/
def HandlerOut : Type := Except String ToolResult × List Request

/-- JSON body construction: `JSON.stringify` drops fields whose value is
`undefined`. -/
def mkBody (fs : List (String × Option Json)) : Json :=
  .obj (fs.filterMap (fun p => p.2.map (fun v => (p.1, v))))

/-- An always-present string body field. -/
def jstr (s : String) : Option Json := some (.str s)

/-- A body field from an optional string argument. -/
def jstrOpt (o : Option String) : Option Json := o.map Json.str

/-- A body field from an optional numeric argument. -/
def jnumOpt (o : Option Int) : Option Json := o.map Json.num

/-- A body field from an optional boolean. -/
def jboolOpt (o : Option Bool) : Option Json := o.map Json.bool

/-! ## `searchHumans` / `getHuman` helper functions (tools.ts 128–155) -/

/-- `SearchParams` of `searchHumans`. -/
structure SearchParams where
  skill : Option String := none
  equipment : Option String := none
  language : Option String := none
  location : Option String := none
  lat : Option Int := none
  lng : Option Int := none
  radius : Option Int := none
  max_rate : Option Int := none
  available_only : Option Bool := none
  work_mode : Option String := none
  verified : Option String := none

/-- Query building of `searchHumans`: each `if (params.x) query.set(...)`
appends its entry only when the parameter is truthy. -/
def searchHumansQuery (p : SearchParams) : List (String × String) :=
  (if truthyS p.skill then [("skill", dispS p.skill)] else []) ++
  (if truthyS p.equipment then [("equipment", dispS p.equipment)] else []) ++
  (if truthyS p.language then [("language", dispS p.language)] else []) ++
  (if truthyS p.location then [("location", dispS p.location)] else []) ++
  (if truthyI p.lat then [("lat", dispI p.lat)] else []) ++
  (if truthyI p.lng then [("lng", dispI p.lng)] else []) ++
  (if truthyI p.radius then [("radius", dispI p.radius)] else []) ++
  (if truthyI p.max_rate then [("maxRate", dispI p.max_rate)] else []) ++
  (if p.available_only == some true then [("available", "true")] else []) ++
  (if truthyS p.work_mode then [("workMode", dispS p.work_mode)] else []) ++
  (if truthyS p.verified then [("verified", dispS p.verified)] else [])

/-- The GET request of `searchHumans` (no headers, no body). -/
def searchHumansReq (p : SearchParams) : Request :=
  { method := "GET", url := API_BASE ++ "/api/humans/search", query := searchHumansQuery p }

/-- The GET request of `getHuman` (no headers, no body). -/
def getHumanReq (id : String) : Request :=
  { method := "GET", url := API_BASE ++ "/api/humans/" ++ id }

/-! ## The tool handlers (tools.ts 927–2223) -/

/-- Per-human summary block of the `search_humans` result (tools.ts 952–979). -/
def humanSummary (h : Json) : String :=
  let rep := h.get ("reputation")
  let rating :=
    if rep.truthy && (rep.get ("avgRating")).gtNum 0 then
      (rep.get ("avgRating")).toDisplay ++ "★ (" ++ (rep.get ("reviewCount")).toDisplay ++ " reviews)"
    else "No reviews"
  let humanityStatus :=
    if (h.get ("humanityVerified")).truthy then
      "🛡️ Verified Human (score: " ++ (h.get ("humanityScore")).toDisplay ++ ")"
    else if (h.get ("humanityScore")).truthy then
      "🛡️ Partially verified (score: " ++ (h.get ("humanityScore")).toDisplay ++ ")"
    else "🛡️ Not verified"
  let rateDisplay :=
    if (h.get ("minRateUsdc")).truthy then
      (if (h.get ("rateCurrency")).truthy && !(h.get ("rateCurrency")).eqStr ("USD") then
        (h.get ("rateCurrency")).toDisplay ++ " " ++ (h.get ("minRateUsdc")).toDisplay
          ++ "+ (~$" ++ jsOr (h.get ("minRateUsdEstimate")) ("?") ++ " USD)"
      else "$" ++ (h.get ("minRateUsdc")).toDisplay ++ "+")
    else "Rate negotiable"
  let displayLocation :=
    if (h.get ("locationGranularity")).eqStr ("neighborhood") && (h.get ("neighborhood")).truthy
        && (h.get ("location")).truthy then
      (h.get ("neighborhood")).toDisplay ++ ", " ++ (h.get ("location")).toDisplay
    else jsOr (h.get ("location")) ("Location not specified")
  let displayName := orStr (jsOr (h.get ("name")) ("")) (jsOr (h.get ("username")) ("Name hidden"))
  "- **" ++ displayName ++ "**"
    ++ (if (h.get ("username")).truthy && (h.get ("name")).truthy then
          " (@" ++ (h.get ("username")).toDisplay ++ ")" else "")
    ++ " [" ++ displayLocation ++ "]\n  "
    ++ (if (h.get ("isAvailable")).truthy then "✅ Available" else "❌ Busy")
    ++ " | " ++ rateDisplay ++ " | " ++ rating ++ "\n  " ++ humanityStatus
    ++ "\n  Skills: " ++ orStr (joinComma (h.get ("skills"))) ("None listed")
    ++ "\n  Equipment: " ++ orStr (joinComma (h.get ("equipment"))) ("None listed")
    ++ "\n  Languages: " ++ orStr (joinComma (h.get ("languages"))) ("Not specified")
    ++ "\n  Jobs completed: " ++ jsOr (rep.get ("jobsCompleted")) ("0")

/-- The `SearchParams` object the `search_humans` handler builds from its
arguments (tools.ts 932–944). -/
def searchParamsOf (a : Args) : SearchParams :=
  { skill := a.skill, equipment := a.equipment, language := a.language,
    location := a.location, lat := a.lat, lng := a.lng, radius := a.radius,
    max_rate := a.max_rate, available_only := some (a.available_only != some false),
    work_mode := a.work_mode, verified := a.verified }

/-- Handler of `search_humans`.  The single fetch happens unconditionally;
only the result depends on the response, so the request list is factored
out of the branching. -/
def searchHumansH (a : Args) (o : Oracle) : HandlerOut :=
  let res := o 0
  ((if !res.ok then
      .error ("API error: " ++ toString res.status)
    else
      let humans := res.body.asList
      if humans.length == 0 then
        .ok { text := "No humans found matching the criteria." }
      else
        .ok { text := "Found " ++ toString humans.length ++ " human(s):\n\n"
                ++ String.intercalate ("\n\n") (humans.map humanSummary)
                ++ "\n\n_Contact info and wallets require an ACTIVE agent. Use get_human_profile after activating._" }),
   [searchHumansReq (searchParamsOf a)])

/-- Per-service block of the `get_human` result (tools.ts 990–1001). -/
def serviceBlock (s : Json) : String :=
  let cur := jsOr (s.get ("priceCurrency")) ("USD")
  let price :=
    if (s.get ("priceUnit")).eqStr ("NEGOTIABLE") then "Negotiable"
    else if (s.get ("priceMin")).truthy then
      let sym := if cur == "USD" then "$" else cur ++ " "
      if (s.get ("priceUnit")).eqStr ("HOURLY") then
        sym ++ (s.get ("priceMin")).toDisplay ++ "/hr"
      else if (s.get ("priceUnit")).eqStr ("FLAT_TASK") then
        sym ++ (s.get ("priceMin")).toDisplay ++ "/task"
      else sym ++ (s.get ("priceMin")).toDisplay
    else "Negotiable"
  "- **" ++ (s.get ("title")).toDisplay ++ "** [" ++ (s.get ("category")).toDisplay ++ "]\n  "
    ++ (s.get ("description")).toDisplay ++ "\n  Price: " ++ price

/-- Handler of `get_human` (tools.ts 987–1051); the fetch and the
`Human not found` throw live in `getHuman` (tools.ts 149–155). -/
def getHumanH (a : Args) (o : Oracle) : HandlerOut :=
  let res := o 0
  ((if !res.ok then
    .error ("Human not found: " ++ dispS a.id)
  else
    let human := res.body
    let servicesInfo :=
      String.intercalate ("\n\n") ((human.get ("services")).asList.map serviceBlock)
    let rep := human.get ("reputation")
    let rating :=
      if rep.truthy && (rep.get ("avgRating")).gtNum 0 then
        (rep.get ("avgRating")).toDisplay ++ "★ (" ++ (rep.get ("reviewCount")).toDisplay ++ " reviews)"
      else "No reviews yet"
    let humanityTier :=
      if (human.get ("humanityScore")).truthy then
        (if (human.get ("humanityScore")).geNum 40 then "Gold"
         else if (human.get ("humanityScore")).geNum 20 then "Silver"
         else "Bronze")
      else "Not verified"
    .ok { text :=
      "# " ++ (human.get ("name")).toDisplay
      ++ (if (human.get ("username")).truthy then " (@" ++ (human.get ("username")).toDisplay ++ ")" else "")
      ++ "\n" ++ (if (human.get ("isAvailable")).truthy then "✅ Available" else "❌ Not Available")
      ++ "\n\n## Humanity Verification\n- **Status:** "
      ++ (if (human.get ("humanityVerified")).truthy then "🛡️ Verified" else "❌ Not Verified")
      ++ "\n- **Score:** "
      ++ (if (human.get ("humanityScore")).isNull then "N/A" else (human.get ("humanityScore")).toDisplay)
      ++ "\n- **Tier:** " ++ humanityTier
      ++ "\n- **Provider:** " ++ jsOr (human.get ("humanityProvider")) ("N/A")
      ++ "\n- **Verified At:** " ++ jsOr (human.get ("humanityVerifiedAt")) ("N/A")
      ++ "\n\n## Reputation\n- Jobs completed: " ++ jsOr (rep.get ("jobsCompleted")) ("0")
      ++ "\n- Rating: " ++ rating
      ++ "\n\n## Bio\n" ++ jsOr (human.get ("bio")) ("No bio provided")
      ++ "\n\n## Location\n"
      ++ (if (human.get ("locationGranularity")).eqStr ("neighborhood")
            && (human.get ("neighborhood")).truthy && (human.get ("location")).truthy then
            (human.get ("neighborhood")).toDisplay ++ ", " ++ (human.get ("location")).toDisplay
          else jsOr (human.get ("location")) ("Not specified"))
      ++ "\n\n## Capabilities\n- **Skills:** " ++ orStr (joinComma (human.get ("skills"))) ("None listed")
      ++ "\n- **Equipment:** " ++ orStr (joinComma (human.get ("equipment"))) ("None listed")
      ++ "\n- **Languages:** " ++ orStr (joinComma (human.get ("languages"))) ("Not specified")
      ++ "\n\n## Economics\n- **Minimum Rate:** "
      ++ (if (human.get ("minRateUsdc")).truthy then
            (if (human.get ("rateCurrency")).truthy && !(human.get ("rateCurrency")).eqStr ("USD") then
              (human.get ("rateCurrency")).toDisplay ++ " " ++ (human.get ("minRateUsdc")).toDisplay
                ++ " (~$" ++ jsOr (human.get ("minRateUsdEstimate")) ("?") ++ " USD)"
             else "$" ++ (human.get ("minRateUsdc")).toDisplay ++ " USD")
          else "Negotiable")
      ++ "\n- **Rate Currency:** " ++ jsOr (human.get ("rateCurrency")) ("USD")
      ++ "\n- **Rate Type:** " ++ jsOr (human.get ("rateType")) ("NEGOTIABLE")
      ++ "\n\n## Contact & Payment\n_Available via get_human_profile (requires ACTIVE agent)._\n\n## Services Offered\n"
      ++ orStr servicesInfo ("No services listed") }),
   [getHumanReq (dispS a.id)])

/-- Handler of `register_agent` (tools.ts 1053–1095). -/
def registerAgentReq (a : Args) : Request :=
  { method := "POST", url := API_BASE ++ "/api/agents/register",
    headers := [("Content-Type", "application/json")],
    body := some (mkBody
      [("name", jstrOpt a.name), ("description", jstrOpt a.description),
       ("websiteUrl", jstrOpt a.website_url), ("contactEmail", jstrOpt a.contact_email)]) }

/-- Handler of `register_agent`, continued. -/
def registerAgentH (a : Args) (o : Oracle) : HandlerOut :=
  let res := o 0
  ((if !res.ok then
    .error (jsOr (res.body.get ("error")) ("API error: " ++ toString res.status))
  else
    let result := res.body
    .ok { text :=
      "**Agent Registered!**\n\n**Agent ID:** " ++ ((result.get ("agent")).get ("id")).toDisplay
      ++ "\n**Name:** " ++ ((result.get ("agent")).get ("name")).toDisplay
      ++ "\n**API Key:** `" ++ (result.get ("apiKey")).toDisplay
      ++ "`\n**Status:** PENDING\n\n**IMPORTANT:** Save your API key now — it cannot be retrieved later.\nPass it as `agent_key` when using `create_job_offer`.\n\n**⚠️ Activation Required:** Your agent starts as PENDING. You must activate before creating jobs or viewing full profiles.\n- **Free (BASIC tier):** Use `request_activation_code` to get a code, post it on social media, then `verify_social_activation`.\n- **Paid (PRO tier):** Use `get_payment_activation` for a deposit address, then `verify_payment_activation`.\n\n**Domain Verification Token:** `"
      ++ (result.get ("verificationToken")).toDisplay
      ++ "`\nTo get a verified badge, set up domain verification using `verify_agent_domain`." }),
   [registerAgentReq a])

/-- Handler of `get_agent_profile` (tools.ts 1097–1125). -/
def getAgentProfileH (a : Args) (o : Oracle) : HandlerOut :=
  let res := o 0
  ((if !res.ok then
    .error ("Agent not found: " ++ dispS a.agent_id)
  else
    let agent := res.body
    let rep := agent.get ("reputation")
    .ok { text :=
      "# " ++ (agent.get ("name")).toDisplay
      ++ (if (agent.get ("domainVerified")).truthy then " ✅ Verified" else "")
      ++ "\n\n## Profile\n- **Description:** " ++ jsOr (agent.get ("description")) ("No description")
      ++ "\n- **Website:** " ++ jsOr (agent.get ("websiteUrl")) ("Not set")
      ++ "\n- **Contact:** " ++ jsOr (agent.get ("contactEmail")) ("Not provided")
      ++ "\n- **Domain Verified:** "
      ++ (if (agent.get ("domainVerified")).truthy then
            "Yes (" ++ (agent.get ("verifiedAt")).toDisplay ++ ")" else "No")
      ++ "\n- **Registered:** " ++ (agent.get ("createdAt")).toDisplay
      ++ "\n- **Last Active:** " ++ (agent.get ("lastActiveAt")).toDisplay
      ++ "\n\n## Reputation\n- **Total Jobs:** " ++ jsOr (rep.get ("totalJobs")) ("0")
      ++ "\n- **Completed Jobs:** " ++ jsOr (rep.get ("completedJobs")) ("0")
      ++ "\n- **Paid Jobs:** " ++ jsOr (rep.get ("paidJobs")) ("0")
      ++ "\n- **Avg Payment Speed:** "
      ++ (if !(rep.get ("avgPaymentSpeedHours")).isNull then
            (rep.get ("avgPaymentSpeedHours")).toDisplay ++ " hours" else "N/A") }),
   [{ method := "GET", url := API_BASE ++ "/api/agents/" ++ dispS a.agent_id }])

/-- The request of `verify_agent_domain` (tools.ts 1128–1137). -/
def verifyAgentDomainReq (a : Args) : Request :=
  { method := "POST", url := API_BASE ++ "/api/agents/" ++ dispS a.agent_id ++ "/verify-domain",
    headers := [("Content-Type", "application/json"), ("X-Agent-Key", dispS a.agent_key)],
    body := some (mkBody [("method", jstrOpt a.method)]) }

/-- Handler of `verify_agent_domain` (tools.ts 1127–1158).  Note: no local
`agent_key` check — the request is sent with whatever key was supplied. -/
def verifyAgentDomainH (a : Args) (o : Oracle) : HandlerOut :=
  let res := o 0
  ((if !res.ok then
    .error (jsOr2 (res.body.get ("message")) (res.body.get ("error"))
             ("API error: " ++ toString res.status))
  else
    .ok { text :=
      "**Domain Verified!**\n\n**Domain:** " ++ (res.body.get ("domain")).toDisplay
      ++ "\n**Status:** Verified\n\nYour agent profile now shows a verified badge. Humans will see this when reviewing your job offers." }),
   [verifyAgentDomainReq a])

/-- The synthesized `AGENT_PENDING` guidance of `create_job_offer`
(tools.ts 1196–1199). -/
def pendingGuideJobs : String :=
  "Agent is not yet activated. You must activate before creating jobs.\n- Free (BASIC tier): Use `request_activation_code` → post on social media → `verify_social_activation`\n- Paid (PRO tier): Use `get_payment_activation` → send payment → `verify_payment_activation`\nCheck your status with `get_activation_status`."

/-- The job-creation request of `create_job_offer` (tools.ts 1167–1190). -/
def createJobOfferReq (a : Args) : Request :=
  { method := "POST", url := API_BASE ++ "/api/jobs",
    headers := [("Content-Type", "application/json"), ("X-Agent-Key", dispS a.agent_key)],
    body := some (mkBody
      [("humanId", jstrOpt a.human_id), ("agentId", jstrOpt a.agent_id),
       ("agentName", jstrOpt a.agent_name), ("title", jstrOpt a.title),
       ("description", jstrOpt a.description), ("category", jstrOpt a.category),
       ("priceUsdc", jnumOpt a.price_usdc), ("paymentMode", jstrOpt a.payment_mode),
       ("paymentTiming", jstrOpt a.payment_timing), ("streamMethod", jstrOpt a.stream_method),
       ("streamInterval", jstrOpt a.stream_interval), ("streamRateUsdc", jnumOpt a.stream_rate_usdc),
       ("streamMaxTicks", jnumOpt a.stream_max_ticks), ("callbackUrl", jstrOpt a.callback_url),
       ("callbackSecret", jstrOpt a.callback_secret)]) }

/-- Handler of `create_job_offer` (tools.ts 1161–1229).  On a successful
creation it performs a second fetch (`getHuman`) before rendering. -/
def createJobOfferH (a : Args) (o : Oracle) : HandlerOut :=
  if !(truthyS a.agent_key) then
    (.error ("agent_key is required. Register first with register_agent to get an API key."), [])
  else
    let req := createJobOfferReq a
    let res := o 0
    if !res.ok then
      ((if res.status == 403 && (res.body.get ("code")).eqStr ("AGENT_PENDING") then
          .error pendingGuideJobs
        else
          .error (jsOr (res.body.get ("error")) ("API error: " ++ toString res.status))),
       [req])
    else
      let job := res.body
      let req2 := getHumanReq (dispS a.human_id)
      let res2 := o 1
      ((if !res2.ok then
          .error ("Human not found: " ++ dispS a.human_id)
        else
          let human := res2.body
          let webhookNote :=
            if truthyS a.callback_url then
              "\n\n🔔 **Webhook configured.** Status updates will be sent to your callback URL. On acceptance, the human\x27s contact info will be included in the webhook payload."
            else
              "\n\nUse `get_job_status` with job_id \"" ++ (job.get ("id")).toDisplay ++ "\" to check if they\x27ve accepted."
          .ok { text :=
            "**Job Offer Created!**\n\n**Job ID:** " ++ (job.get ("id")).toDisplay
            ++ "\n**Status:** " ++ (job.get ("status")).toDisplay
            ++ "\n**Human:** " ++ (human.get ("name")).toDisplay
            ++ "\n**Price:** $" ++ dispI a.price_usdc
            ++ " USDC\n\n⏳ **Next Step:** Wait for " ++ (human.get ("name")).toDisplay
            ++ " to accept the offer." ++ webhookNote
            ++ "\n\nOnce accepted, you can send payment to their wallet and use `mark_job_paid` to record the transaction." }),
       [req, req2])

/-- `statusEmoji[status] || ''` of `get_job_status` (tools.ts 1239–1249). -/
def statusEmojiOf (s : String) : String :=
  if s == "PENDING" then "⏳"
  else if s == "ACCEPTED" then "✅"
  else if s == "REJECTED" then "❌"
  else if s == "PAID" then "💰"
  else if s == "STREAMING" then "🔄"
  else if s == "PAUSED" then "⏸️"
  else if s == "COMPLETED" then "🎉"
  else if s == "CANCELLED" then "🚫"
  else if s == "DISPUTED" then "⚠️"
  else ""

/-- The `nextStep` switch of `get_job_status` (tools.ts 1251–1292). -/
def jobNextStep (job : Json) : String :=
  let isStream := (job.get ("paymentMode")).eqStr ("STREAM")
  let streamSummary := job.get ("streamSummary")
  let st := job.get ("status")
  if st.eqStr ("PENDING") then
    "Waiting for the human to accept or reject."
  else if st.eqStr ("ACCEPTED") then
    (if isStream then
      (if (job.get ("streamMethod")).eqStr ("SUPERFLUID") then
        "Human accepted! Create a Superfluid flow to their wallet, then use `start_stream` with your sender address to verify."
       else
        "Human accepted! Use `start_stream` to lock the network/token and start sending payments.")
     else if (job.get ("callbackUrl")).truthy then
       "Human accepted! Contact info was sent to your webhook. Send $" ++ (job.get ("priceUsdc")).toDisplay
         ++ " USDC to their wallet, then use `mark_job_paid` with the transaction hash."
     else
       "Human accepted! Send $" ++ (job.get ("priceUsdc")).toDisplay
         ++ " USDC to their wallet, then use `mark_job_paid` with the transaction hash.")
  else if st.eqStr ("REJECTED") then
    "The human rejected this offer. Consider adjusting your offer or finding another human."
  else if st.eqStr ("PAID") then
    "Payment recorded. Work is in progress. The human will mark it complete when done."
  else if st.eqStr ("STREAMING") then
    (if (streamSummary.get ("method")).eqStr ("SUPERFLUID") then
      "Stream active via Superfluid. Total streamed: $" ++ jsOr (streamSummary.get ("totalPaid")) ("0")
        ++ " USDC. Use `pause_stream` or `stop_stream` to manage."
     else
      "Stream active via micro-transfer. Total paid: $" ++ jsOr (streamSummary.get ("totalPaid")) ("0")
        ++ " USDC. Use `record_stream_tick` to submit each payment.")
  else if st.eqStr ("PAUSED") then
    "Stream is paused. Use `resume_stream` to continue or `stop_stream` to end permanently."
  else if st.eqStr ("COMPLETED") then
    (if (job.get ("review")).truthy then
      "Review submitted: " ++ ((job.get ("review")).get ("rating")).toDisplay ++ "/5 stars"
     else
      "Job complete! You can now use `leave_review` to rate the human.")
  else ""

/-- Handler of `get_job_status` (tools.ts 1231–1325). -/
def getJobStatusH (a : Args) (o : Oracle) : HandlerOut :=
  let res := o 0
  ((if !res.ok then
    .error ("Job not found: " ++ dispS a.job_id)
  else
    let job := res.body
    let isStream := (job.get ("paymentMode")).eqStr ("STREAM")
    let streamSummary := job.get ("streamSummary")
    let nextStep := jobNextStep job
    let agentInfo :=
      if (job.get ("registeredAgent")).truthy then
        "**Agent:** " ++ ((job.get ("registeredAgent")).get ("name")).toDisplay
          ++ (if ((job.get ("registeredAgent")).get ("domainVerified")).truthy then " ✅ Verified" else "")
      else if (job.get ("agentName")).truthy then
        "**Agent:** " ++ (job.get ("agentName")).toDisplay
      else ""
    let streamInfo :=
      if isStream && streamSummary.truthy then
        "\n**Payment Mode:** STREAM (" ++ (streamSummary.get ("method")).toDisplay
        ++ ")\n**Rate:** $" ++ jsOr (streamSummary.get ("rateUsdc")) ("?")
        ++ "/" ++ (orStr (jsOr (streamSummary.get ("interval")) ("")) ("DAILY")).toLower
        ++ "\n**Total Paid:** $" ++ jsOr (streamSummary.get ("totalPaid")) ("0")
        ++ " USDC\n**Ticks:** " ++ jsOr (streamSummary.get ("tickCount")) ("0")
        ++ (if (streamSummary.get ("maxTicks")).truthy then
              "/" ++ (streamSummary.get ("maxTicks")).toDisplay else "")
        ++ "\n**Network:** " ++ jsOr (streamSummary.get ("network")) ("Not set")
      else ""
    .ok { text :=
      "**Job Status**\n\n**Job ID:** " ++ (job.get ("id")).toDisplay
      ++ "\n**Status:** " ++ statusEmojiOf ((job.get ("status")).toDisplay)
      ++ " " ++ (job.get ("status")).toDisplay
      ++ "\n**Title:** " ++ (job.get ("title")).toDisplay
      ++ "\n**Price:** $" ++ (job.get ("priceUsdc")).toDisplay
      ++ " USDC\n**Human:** " ++ ((job.get ("human")).get ("name")).toDisplay
      ++ "\n" ++ (if agentInfo != "" then agentInfo ++ "\n" else "") ++ streamInfo
      ++ "\n**Next Step:** " ++ nextStep }),
   [{ method := "GET", url := API_BASE ++ "/api/jobs/" ++ dispS a.job_id }])

/-- Handler of `mark_job_paid` (tools.ts 1327–1362).  Note: the request
carries only the `Content-Type` header — no agent credential. -/
def markJobPaidReq (a : Args) : Request :=
  { method := "PATCH", url := API_BASE ++ "/api/jobs/" ++ dispS a.job_id ++ "/paid",
    headers := [("Content-Type", "application/json")],
    body := some (mkBody
      [("paymentTxHash", jstrOpt a.payment_tx_hash),
       ("paymentNetwork", jstrOpt a.payment_network),
       ("paymentAmount", jnumOpt a.payment_amount)]) }

/-- Handler of `mark_job_paid`, continued. -/
def markJobPaidH (a : Args) (o : Oracle) : HandlerOut :=
  let res := o 0
  ((if !res.ok then
    .error (jsOr2 (res.body.get ("reason")) (res.body.get ("error"))
             ("API error: " ++ toString res.status))
  else
    let result := res.body
    .ok { text :=
      "**Payment Recorded!**\n\n**Job ID:** " ++ (result.get ("id")).toDisplay
      ++ "\n**Status:** " ++ (result.get ("status")).toDisplay
      ++ "\n**Transaction:** " ++ dispS a.payment_tx_hash
      ++ "\n**Network:** " ++ dispS a.payment_network
      ++ "\n**Amount:** $" ++ dispI a.payment_amount
      ++ " USDC\n\nThe human can now begin work. They will mark the job as complete when finished.\nAfter completion, you can leave a review using `leave_review`." }),
   [markJobPaidReq a])

/-- Handler of `check_humanity_status` (tools.ts 1364–1391); fetches via
`getHuman`. -/
def checkHumanityStatusH (a : Args) (o : Oracle) : HandlerOut :=
  let res := o 0
  ((if !res.ok then
    .error ("Human not found: " ++ dispS a.human_id)
  else
    let human := res.body
    let tier :=
      if (human.get ("humanityScore")).truthy then
        (if (human.get ("humanityScore")).geNum 40 then "Gold"
         else if (human.get ("humanityScore")).geNum 20 then "Silver"
         else "Bronze")
      else "None"
    .ok { text :=
      "**Humanity Verification Status**\n\n**Human:** " ++ (human.get ("name")).toDisplay
      ++ (if (human.get ("username")).truthy then " (@" ++ (human.get ("username")).toDisplay ++ ")" else "")
      ++ "\n**Verified:** " ++ (if (human.get ("humanityVerified")).truthy then "✅ Yes" else "❌ No")
      ++ "\n**Score:** "
      ++ (if (human.get ("humanityScore")).isNull then "Not checked" else (human.get ("humanityScore")).toDisplay)
      ++ "\n**Tier:** " ++ tier
      ++ "\n**Provider:** " ++ jsOr (human.get ("humanityProvider")) ("N/A")
      ++ "\n**Last Verified:** " ++ jsOr (human.get ("humanityVerifiedAt")) ("Never")
      ++ "\n\n"
      ++ (if (human.get ("humanityVerified")).truthy then
            "This human has verified their identity through Gitcoin Passport."
          else if (human.get ("humanityScore")).truthy then
            "This human has checked their score but does not meet the verification threshold (20+)."
          else "This human has not yet verified their identity.") }),
   [getHumanReq (dispS a.human_id)])

/-- `'⭐'.repeat(args?.rating as number)`: JS coerces `undefined` to count 0
and throws `RangeError` on a negative count. -/
def repeatStars (r : Option Int) : Except String String :=
  match r with
  | none => .ok ""
  | some n =>
      if n < 0 then .error ("Invalid count value: " ++ toString n)
      else .ok (String.join (List.replicate n.toNat ("⭐")))

/-- Handler of `leave_review` (tools.ts 2181–2210).  Note: no local rating
validation and no agent credential — the request goes straight to the
collaborator. -/
def leaveReviewReq (a : Args) : Request :=
  { method := "POST", url := API_BASE ++ "/api/jobs/" ++ dispS a.job_id ++ "/review",
    headers := [("Content-Type", "application/json")],
    body := some (mkBody
      [("rating", jnumOpt a.rating), ("comment", jstrOpt a.comment)]) }

/-- Handler of `leave_review`, continued. -/
def leaveReviewH (a : Args) (o : Oracle) : HandlerOut :=
  let res := o 0
  ((if !res.ok then
    .error (jsOr2 (res.body.get ("reason")) (res.body.get ("error"))
             ("API error: " ++ toString res.status))
  else
    match repeatStars a.rating with
    | .error m => .error m
    | .ok stars =>
        .ok { text :=
          "**Review Submitted!**\n\n**Rating:** " ++ stars ++ "\n"
          ++ (if truthyS a.comment then "**Comment:** " ++ dispS a.comment else "")
          ++ "\n\nThank you for your feedback. This helps build the human\x27s reputation." }),
   [leaveReviewReq a])

/-- `x || y` where both sides are JSON values (display of the first truthy). -/
def jsOrJ (j k : Json) : String :=
  if j.truthy then j.toDisplay else k.toDisplay

/-- Wallet line of the `get_human_profile` result (tools.ts 1413–1415). -/
def walletLine (w : Json) : String :=
  "- " ++ jsOrJ (w.get ("chain")) (w.get ("network"))
    ++ (if (w.get ("label")).truthy then " (" ++ (w.get ("label")).toDisplay ++ ")" else "")
    ++ (if (w.get ("isPrimary")).truthy then " ⭐" else "")
    ++ ": " ++ (w.get ("address")).toDisplay

/-- Fiat payment-method line of the `get_human_profile` result
(tools.ts 1418–1420). -/
def fiatLine (f : Json) : String :=
  "- " ++ (f.get ("platform")).toDisplay
    ++ (if (f.get ("label")).truthy then " (" ++ (f.get ("label")).toDisplay ++ ")" else "")
    ++ (if (f.get ("isPrimary")).truthy then " ⭐" else "")
    ++ ": " ++ (f.get ("handle")).toDisplay

/-- Handler of `get_human_profile` (tools.ts 1393–1451). -/
def getHumanProfileH (a : Args) (o : Oracle) : HandlerOut :=
  if !(truthyS a.agent_key) then
    (.error ("agent_key is required. Register and activate first."), [])
  else
    let res := o 0
    ((if !res.ok then
      (if res.status == 403 && (res.body.get ("code")).eqStr ("AGENT_PENDING") then
        .error ("Agent is not yet activated. Activate first using request_activation_code or get_payment_activation.")
      else
        .error (jsOr (res.body.get ("error")) ("API error: " ++ toString res.status)))
    else
      let human := res.body
      let wallets := (human.get ("wallets")).asList
      let walletInfo := String.intercalate ("\n") (wallets.map walletLine)
      let primaryWallet :=
        match wallets.find? (fun w => (w.get ("isPrimary")).truthy) with
        | some w => some w
        | none => wallets.head?
      let fiatInfo := String.intercalate ("\n") (((human.get ("fiatPaymentMethods")).asList).map fiatLine)
      let socialLinks := String.intercalate ("\n") (List.filterMap id
        [if (human.get ("linkedinUrl")).truthy then some ("- LinkedIn: " ++ (human.get ("linkedinUrl")).toDisplay) else none,
         if (human.get ("twitterUrl")).truthy then some ("- Twitter: " ++ (human.get ("twitterUrl")).toDisplay) else none,
         if (human.get ("githubUrl")).truthy then some ("- GitHub: " ++ (human.get ("githubUrl")).toDisplay) else none,
         if (human.get ("instagramUrl")).truthy then some ("- Instagram: " ++ (human.get ("instagramUrl")).toDisplay) else none,
         if (human.get ("youtubeUrl")).truthy then some ("- YouTube: " ++ (human.get ("youtubeUrl")).toDisplay) else none,
         if (human.get ("websiteUrl")).truthy then some ("- Website: " ++ (human.get ("websiteUrl")).toDisplay) else none])
      .ok { text :=
        "# " ++ (human.get ("name")).toDisplay
        ++ (if (human.get ("username")).truthy then " (@" ++ (human.get ("username")).toDisplay ++ ")" else "")
        ++ " — Full Profile\n\n## Contact\n- Email: " ++ jsOr (human.get ("contactEmail")) ("Not provided")
        ++ "\n- Telegram: " ++ jsOr (human.get ("telegram")) ("Not provided")
        ++ "\n- Signal: " ++ jsOr (human.get ("signal")) ("Not provided")
        ++ "\n\n## Payment Wallets\n" ++ orStr walletInfo ("No wallets added")
        ++ "\n"
        ++ (match primaryWallet with
            | some w => "\n**Preferred wallet:** " ++ jsOrJ (w.get ("chain")) (w.get ("network"))
                ++ " - " ++ (w.get ("address")).toDisplay
            | none => "")
        ++ "\n\n## Fiat Payment Methods\n" ++ orStr fiatInfo ("No fiat payment methods added")
        ++ "\n\n## Social Profiles\n" ++ orStr socialLinks ("No social profiles added") }),
     [{ method := "GET", url := API_BASE ++ "/api/humans/" ++ dispS a.human_id ++ "/profile",
        headers := [("X-Agent-Key", dispS a.agent_key)] }])

/-- Handler of `request_activation_code` (tools.ts 1453–1510). -/
def requestActivationCodeH (a : Args) (o : Oracle) : HandlerOut :=
  if !(truthyS a.agent_key) then
    (.error ("agent_key is required."), [])
  else
    let res := o 0
    ((if !res.ok then
      .error (jsOr (res.body.get ("error")) ("API error: " ++ toString res.status))
    else
      let result := res.body
      let platforms := (result.get ("platforms")).asList
      .ok { text :=
        "**Activation Code Generated!**\n\n**Code:** `" ++ (result.get ("code")).toDisplay
        ++ "`\n**Expires:** " ++ (result.get ("expiresAt")).toDisplay
        ++ (if (result.get ("requirements")).truthy then
              "\n\n**Requirements:** " ++ (result.get ("requirements")).toDisplay else "")
        ++ (if platforms.length > 0 then
              "\n\n**Copy-paste for each platform:**"
              ++ String.join (platforms.map (fun p =>
                   "\n\n**" ++ p.toDisplay ++ ":**\n> "
                   ++ jsOr ((result.get ("suggestedPosts")).get (p.toDisplay))
                        ((result.get ("code")).toDisplay)))
            else "")
        ++ "\n\nAfter posting, use `verify_social_activation` with the URL of your post." }),
     [{ method := "POST", url := API_BASE ++ "/api/agents/activate/social",
        headers := [("Content-Type", "application/json"), ("X-Agent-Key", dispS a.agent_key)] }])

/-- Handler of `verify_social_activation` (tools.ts 1512–1547). -/
def verifySocialActivationH (a : Args) (o : Oracle) : HandlerOut :=
  if !(truthyS a.agent_key) then
    (.error ("agent_key is required."), [])
  else
    let res := o 0
    ((if !res.ok then
      .error (jsOr (res.body.get ("error")) ("API error: " ++ toString res.status))
    else
      .ok { text :=
        "**Agent Activated!**\n\n**Status:** " ++ (res.body.get ("status")).toDisplay
        ++ "\n**Tier:** " ++ (res.body.get ("tier")).toDisplay
        ++ "\n\nYou can now create job offers and view full human profiles using `get_human_profile`." }),
     [{ method := "POST", url := API_BASE ++ "/api/agents/activate/social/verify",
        headers := [("Content-Type", "application/json"), ("X-Agent-Key", dispS a.agent_key)],
        body := some (mkBody [("postUrl", jstrOpt a.post_url)]) }])

/-- Handler of `get_activation_status` (tools.ts 1549–1601). -/
def getActivationStatusH (a : Args) (o : Oracle) : HandlerOut :=
  if !(truthyS a.agent_key) then
    (.error ("agent_key is required."), [])
  else
    let res := o 0
    ((if !res.ok then
      .error (jsOr (res.body.get ("error")) ("API error: " ++ toString res.status))
    else
      let result := res.body
      let limits := result.get ("limits")
      let jobLimit :=
        if (limits.get ("jobOffersPerDay")).truthy then
          (limits.get ("jobOffersPerDay")).toDisplay ++ "/day"
        else if (limits.get ("jobOffersPerTwoDays")).truthy then
          (limits.get ("jobOffersPerTwoDays")).toDisplay ++ "/2 days"
        else "N/A"
      .ok { text :=
        "**Activation Status**\n\n**Status:** " ++ (result.get ("status")).toDisplay
        ++ "\n**Tier:** " ++ jsOr (result.get ("tier")) ("BASIC")
        ++ "\n**Activated:** " ++ jsOr (result.get ("activatedAt")) ("Not yet")
        ++ "\n**Expires:** " ++ jsOr (result.get ("activationExpiresAt")) ("N/A")
        ++ "\n**Profile views:** "
        ++ (if (limits.get ("profileViewsPerDay")).isNull then "N/A"
            else (limits.get ("profileViewsPerDay")).toDisplay)
        ++ "/day\n**Job offers:** " ++ jobLimit
        ++ (if ((result.get ("x402")).get ("enabled")).truthy then
              "\n**x402 pay-per-use:** profile view "
              ++ ((((result.get ("x402")).get ("prices")).get ("profile_view"))).toDisplay
              ++ ", job offer "
              ++ ((((result.get ("x402")).get ("prices")).get ("job_offer"))).toDisplay
            else "") }),
     [{ method := "GET", url := API_BASE ++ "/api/agents/activate/status",
        headers := [("X-Agent-Key", dispS a.agent_key)] }])

/-- Handler of `get_payment_activation` (tools.ts 1603–1641). -/
def getPaymentActivationH (a : Args) (o : Oracle) : HandlerOut :=
  if !(truthyS a.agent_key) then
    (.error ("agent_key is required."), [])
  else
    let res := o 0
    ((if !res.ok then
      .error (jsOr (res.body.get ("error")) ("API error: " ++ toString res.status))
    else
      let result := res.body
      .ok { text :=
        "**PRO Tier Payment Instructions**\n\n**Deposit Address:** `"
        ++ (result.get ("depositAddress")).toDisplay
        ++ "`\n**Amount:** " ++ (result.get ("amount")).toDisplay
        ++ " " ++ (result.get ("currency")).toDisplay
        ++ "\n**Network:** " ++ (result.get ("network")).toDisplay
        ++ "\n**Expires:** " ++ (result.get ("expiresAt")).toDisplay
        ++ "\n\n**Next Steps:**\n1. Send exactly " ++ (result.get ("amount")).toDisplay
        ++ " " ++ (result.get ("currency")).toDisplay
        ++ " to the address above on " ++ (result.get ("network")).toDisplay
        ++ "\n2. Use `verify_payment_activation` with the transaction hash and network\n3. Once verified, your agent will be activated with PRO tier (15 jobs/day, 50 profile views/day)" }),
     [{ method := "POST", url := API_BASE ++ "/api/agents/activate/payment",
        headers := [("Content-Type", "application/json"), ("X-Agent-Key", dispS a.agent_key)] }])

/-- Handler of `verify_payment_activation` (tools.ts 1644–1683). -/
def verifyPaymentActivationH (a : Args) (o : Oracle) : HandlerOut :=
  if !(truthyS a.agent_key) then
    (.error ("agent_key is required."), [])
  else
    let res := o 0
    ((if !res.ok then
      .error (jsOr (res.body.get ("error")) ("API error: " ++ toString res.status))
    else
      .ok { text :=
        "**Agent Activated — PRO Tier!**\n\n**Status:** " ++ (res.body.get ("status")).toDisplay
        ++ "\n**Tier:** " ++ (res.body.get ("tier")).toDisplay
        ++ "\n**Expires:** " ++ (res.body.get ("expiresAt")).toDisplay
        ++ "\n\nYou can now create up to 15 job offers per day and view up to 50 full human profiles per day using `get_human_profile`." }),
     [{ method := "POST", url := API_BASE ++ "/api/agents/activate/payment/verify",
        headers := [("Content-Type", "application/json"), ("X-Agent-Key", dispS a.agent_key)],
        body := some (mkBody [("txHash", jstrOpt a.tx_hash), ("network", jstrOpt a.network)]) }])

/-- Handler of `start_stream` (tools.ts 1685–1714). -/
def startStreamH (a : Args) (o : Oracle) : HandlerOut :=
  if !(truthyS a.agent_key) then
    (.error ("agent_key is required."), [])
  else
    let res := o 0
    ((if !res.ok then
      .error (jsOr2 (res.body.get ("hint")) (res.body.get ("error"))
               ("API error: " ++ toString res.status))
    else
      let result := res.body
      .ok { text :=
        "**Stream Started!**\n\n**Job ID:** " ++ (result.get ("id")).toDisplay
        ++ "\n**Status:** " ++ (result.get ("status")).toDisplay
        ++ "\n**Method:** " ++ ((result.get ("stream")).get ("method")).toDisplay
        ++ "\n**Network:** " ++ ((result.get ("stream")).get ("network")).toDisplay
        ++ "\n\n" ++ (result.get ("message")).toDisplay
        ++ (if ((result.get ("stream")).get ("receiverWallet")).truthy then
              "\n\n**Send payments to:** " ++ ((result.get ("stream")).get ("receiverWallet")).toDisplay
            else "") }),
     [{ method := "PATCH", url := API_BASE ++ "/api/jobs/" ++ dispS a.job_id ++ "/start-stream",
        headers := [("Content-Type", "application/json"), ("X-Agent-Key", dispS a.agent_key)],
        body := some (mkBody
          [("senderAddress", jstrOpt a.sender_address), ("network", jstrOpt a.network),
           ("token", jstr (if truthyS a.token then dispS a.token else "USDC"))]) }])

/-- Handler of `record_stream_tick` (tools.ts 1716–1741). -/
def recordStreamTickH (a : Args) (o : Oracle) : HandlerOut :=
  if !(truthyS a.agent_key) then
    (.error ("agent_key is required."), [])
  else
    let res := o 0
    ((if !res.ok then
      .error (jsOr (res.body.get ("error")) ("API error: " ++ toString res.status))
    else
      let result := res.body
      .ok { text :=
        "**Tick Verified!**\n\n**Job ID:** " ++ (result.get ("id")).toDisplay
        ++ "\n**Status:** " ++ (result.get ("status")).toDisplay
        ++ "\n**Tick:** #" ++ ((result.get ("tick")).get ("tickNumber")).toDisplay
        ++ "\n**Amount:** $" ++ ((result.get ("tick")).get ("amount")).toDisplay
        ++ " USDC\n**Total Paid:** $" ++ (result.get ("totalPaid")).toDisplay
        ++ " USDC"
        ++ (if (result.get ("nextTick")).truthy then
              "\n\n**Next payment due:** " ++ ((result.get ("nextTick")).get ("expectedAt")).toDisplay
            else "") }),
     [{ method := "PATCH", url := API_BASE ++ "/api/jobs/" ++ dispS a.job_id ++ "/stream-tick",
        headers := [("Content-Type", "application/json"), ("X-Agent-Key", dispS a.agent_key)],
        body := some (mkBody [("txHash", jstrOpt a.tx_hash)]) }])

/-- Handler of `pause_stream` (tools.ts 1743–1766). -/
def pauseStreamH (a : Args) (o : Oracle) : HandlerOut :=
  if !(truthyS a.agent_key) then
    (.error ("agent_key is required."), [])
  else
    let res := o 0
    ((if !res.ok then
      .error (jsOr2 (res.body.get ("hint")) (res.body.get ("error"))
               ("API error: " ++ toString res.status))
    else
      .ok { text :=
        "**Stream Paused**\n\n**Job ID:** " ++ (res.body.get ("id")).toDisplay
        ++ "\n**Status:** " ++ (res.body.get ("status")).toDisplay
        ++ "\n\nUse `resume_stream` to continue or `stop_stream` to end permanently." }),
     [{ method := "PATCH", url := API_BASE ++ "/api/jobs/" ++ dispS a.job_id ++ "/pause-stream",
        headers := [("Content-Type", "application/json"), ("X-Agent-Key", dispS a.agent_key)] }])

/-- Handler of `resume_stream` (tools.ts 1769–1796). -/
def resumeStreamH (a : Args) (o : Oracle) : HandlerOut :=
  if !(truthyS a.agent_key) then
    (.error ("agent_key is required."), [])
  else
    let res := o 0
    ((if !res.ok then
      .error (jsOr2 (res.body.get ("hint")) (res.body.get ("error"))
               ("API error: " ++ toString res.status))
    else
      .ok { text :=
        "**Stream Resumed!**\n\n**Job ID:** " ++ (res.body.get ("id")).toDisplay
        ++ "\n**Status:** " ++ (res.body.get ("status")).toDisplay
        ++ "\n\nStream is active again." }),
     [{ method := "PATCH", url := API_BASE ++ "/api/jobs/" ++ dispS a.job_id ++ "/resume-stream",
        headers := [("Content-Type", "application/json"), ("X-Agent-Key", dispS a.agent_key)],
        body := some (mkBody [("senderAddress", jstrOpt a.sender_address)]) }])

/-- Handler of `stop_stream` (tools.ts 1798–1822). -/
def stopStreamH (a : Args) (o : Oracle) : HandlerOut :=
  if !(truthyS a.agent_key) then
    (.error ("agent_key is required."), [])
  else
    let res := o 0
    ((if !res.ok then
      .error (jsOr (res.body.get ("error")) ("API error: " ++ toString res.status))
    else
      .ok { text :=
        "**Stream Stopped**\n\n**Job ID:** " ++ (res.body.get ("id")).toDisplay
        ++ "\n**Status:** " ++ (res.body.get ("status")).toDisplay
        ++ "\n**Total Paid:** $" ++ jsOr (res.body.get ("totalPaid")) ("0")
        ++ " USDC\n\nThe stream has ended. You can now use `leave_review` to rate the human." }),
     [{ method := "PATCH", url := API_BASE ++ "/api/jobs/" ++ dispS a.job_id ++ "/stop-stream",
        headers := [("Content-Type", "application/json"), ("X-Agent-Key", dispS a.agent_key)] }])

/-- Handler of `send_job_message` (tools.ts 1824–1850). -/
def sendJobMessageH (a : Args) (o : Oracle) : HandlerOut :=
  if !(truthyS a.agent_key) then
    (.error ("agent_key is required."), [])
  else
    let res := o 0
    ((if !res.ok then
      .error (jsOr (res.body.get ("error")) ("API error: " ++ toString res.status))
    else
      let message := res.body
      .ok { text :=
        "**Message Sent!**\n\n**Message ID:** " ++ (message.get ("id")).toDisplay
        ++ "\n**From:** " ++ (message.get ("senderName")).toDisplay
        ++ " (" ++ (message.get ("senderType")).toDisplay
        ++ ")\n**Content:** " ++ (message.get ("content")).toDisplay
        ++ "\n**Sent:** " ++ (message.get ("createdAt")).toDisplay
        ++ "\n\nThe human will be notified via email and Telegram (if connected). Use `get_job_messages` to check for replies." }),
     [{ method := "POST", url := API_BASE ++ "/api/jobs/" ++ dispS a.job_id ++ "/messages",
        headers := [("Content-Type", "application/json"), ("X-Agent-Key", dispS a.agent_key)],
        body := some (mkBody [("content", jstrOpt a.content)]) }])

/-- Handler of `get_job_messages` (tools.ts 1852–1883). -/
def getJobMessagesH (a : Args) (o : Oracle) : HandlerOut :=
  if !(truthyS a.agent_key) then
    (.error ("agent_key is required."), [])
  else
    let res := o 0
    ((if !res.ok then
      .error (jsOr (res.body.get ("error")) ("API error: " ++ toString res.status))
    else
      let messages := res.body.asList
      if messages.length == 0 then
        .ok { text := "No messages yet on this job." }
      else
        .ok { text :=
          "**Job Messages** (" ++ toString messages.length ++ " total)\n\n"
          ++ String.intercalate ("\n\n---\n\n") (messages.map (fun m =>
               "**" ++ (m.get ("senderName")).toDisplay ++ "** (" ++ (m.get ("senderType")).toDisplay
               ++ ") — " ++ (m.get ("createdAt")).toDisplay ++ "\n" ++ (m.get ("content")).toDisplay)) }),
     [{ method := "GET", url := API_BASE ++ "/api/jobs/" ++ dispS a.job_id ++ "/messages",
        headers := [("X-Agent-Key", dispS a.agent_key)] }])

/-- The synthesized `AGENT_PENDING` guidance of `create_listing`
(tools.ts 1918–1920). -/
def pendingGuideListings : String :=
  "Agent is not yet activated. You must activate before creating listings.\n- Free (BASIC tier): Use `request_activation_code` → post on social media → `verify_social_activation`\n- Paid (PRO tier): Use `get_payment_activation` → send payment → `verify_payment_activation`"

/-- Handler of `create_listing` (tools.ts 1885–1941). -/
def createListingH (a : Args) (o : Oracle) : HandlerOut :=
  if !(truthyS a.agent_key) then
    (.error ("agent_key is required."), [])
  else
    let res := o 0
    ((if !res.ok then
      (if res.status == 403 && (res.body.get ("code")).eqStr ("AGENT_PENDING") then
        .error pendingGuideListings
      else
        .error (jsOr2 (res.body.get ("message")) (res.body.get ("error"))
                 ("API error: " ++ toString res.status)))
    else
      let result := res.body
      let rateLimitInfo :=
        if (result.get ("paidVia")).truthy then
          "\n**Paid via:** x402"
        else if (result.get ("rateLimit")).truthy then
          "\n**Rate Limit:** " ++ ((result.get ("rateLimit")).get ("remaining")).toDisplay
          ++ " listings remaining (" ++ ((result.get ("rateLimit")).get ("tier")).toDisplay
          ++ " tier, resets in " ++ ((result.get ("rateLimit")).get ("resetIn")).toDisplay ++ ")"
        else ""
      .ok { text :=
        "**Listing Created!**\n\n**Listing ID:** " ++ (result.get ("id")).toDisplay
        ++ "\n**Status:** " ++ (result.get ("status")).toDisplay ++ rateLimitInfo
        ++ "\n\nYour listing is now live on the job board. Humans can browse and apply.\n\nUse `get_listing_applications` with listing_id \""
        ++ (result.get ("id")).toDisplay
        ++ "\" to review applicants.\nUse `make_listing_offer` to hire an applicant." }),
     [{ method := "POST", url := API_BASE ++ "/api/listings",
        headers := [("Content-Type", "application/json"), ("X-Agent-Key", dispS a.agent_key)],
        body := some (mkBody
          [("title", jstrOpt a.title), ("description", jstrOpt a.description),
           ("budgetUsdc", jnumOpt a.budget_usdc), ("category", jstrOpt a.category),
           ("requiredSkills", some (.arr ((a.required_skills.getD []).map Json.str))),
           ("requiredEquipment", some (.arr ((a.required_equipment.getD []).map Json.str))),
           ("location", jstrOpt a.location), ("locationLat", jnumOpt a.location_lat),
           ("locationLng", jnumOpt a.location_lng), ("radiusKm", jnumOpt a.radius_km),
           ("workMode", jstrOpt a.work_mode), ("expiresAt", jstrOpt a.expires_at),
           ("maxApplicants", jnumOpt a.max_applicants), ("callbackUrl", jstrOpt a.callback_url),
           ("callbackSecret", jstrOpt a.callback_secret)]) }])

/-- `(4).toFixed(1)`-style display of an (integral) rating. -/
def toFixed1 (j : Json) : String :=
  match j with
  | .num n => toString n ++ ".0"
  | _ => ""

/-- Query building of `get_listings` (tools.ts 1944–1954). -/
def getListingsQuery (a : Args) : List (String × String) :=
  (if truthyI a.page then [("page", dispI a.page)] else []) ++
  (if truthyI a.limit then [("limit", dispI a.limit)] else []) ++
  (if truthyS a.skill then [("skill", dispS a.skill)] else []) ++
  (if truthyS a.category then [("category", dispS a.category)] else []) ++
  (if truthyS a.work_mode then [("workMode", dispS a.work_mode)] else []) ++
  (if truthyI a.min_budget then [("minBudget", dispI a.min_budget)] else []) ++
  (if truthyI a.max_budget then [("maxBudget", dispI a.max_budget)] else []) ++
  (if truthyI a.lat then [("lat", dispI a.lat)] else []) ++
  (if truthyI a.lng then [("lng", dispI a.lng)] else []) ++
  (if truthyI a.radius then [("radius", dispI a.radius)] else [])

/-- Per-listing summary block of the `get_listings` result
(tools.ts 1973–1986). -/
def listingSummary (l : Json) : String :=
  let agent := l.get ("agent")
  let rep := l.get ("agentReputation")
  let agentInfo :=
    if agent.truthy then
      (agent.get ("name")).toDisplay
      ++ (if (agent.get ("domainVerified")).truthy then " ✅" else "")
    else "Unknown"
  let repInfo :=
    if (rep.get ("completedJobs")).gtNum 0 then
      " | " ++ (rep.get ("completedJobs")).toDisplay ++ " jobs, "
      ++ (if (rep.get ("avgRating")).truthy then toFixed1 (rep.get ("avgRating")) ++ "★" else "no ratings")
    else ""
  "- **" ++ (l.get ("title")).toDisplay ++ "** [$" ++ (l.get ("budgetUsdc")).toDisplay
  ++ " USDC]" ++ (if (l.get ("isPro")).truthy then " 🏆 PRO" else "")
  ++ "\n  Agent: " ++ agentInfo ++ repInfo
  ++ "\n  " ++ (if (l.get ("category")).truthy then "Category: " ++ (l.get ("category")).toDisplay ++ " | " else "")
  ++ jsOr (l.get ("workMode")) ("Any") ++ " | " ++ jsOr ((l.get ("_count")).get ("applications")) ("0")
  ++ " applicant(s)\n  "
  ++ (if ((l.get ("requiredSkills")).asList).length > 0 then
        "Skills: " ++ joinComma (l.get ("requiredSkills")) else "")
  ++ "\n  " ++ (if (l.get ("location")).truthy then "Location: " ++ (l.get ("location")).toDisplay else "")
  ++ "\n  Expires: " ++ (l.get ("expiresAt")).toDisplay
  ++ "\n  ID: " ++ (l.get ("id")).toDisplay

/-- Handler of `get_listings` (tools.ts 1943–1994).  Unauthenticated GET. -/
def getListingsH (a : Args) (o : Oracle) : HandlerOut :=
  let res := o 0
  ((if !res.ok then
    .error ("API error: " ++ toString res.status)
  else
    let result := res.body
    let listings := (result.get ("listings")).asList
    if listings.length == 0 then
      .ok { text := "No open listings found matching the criteria." }
    else
      .ok { text :=
        "**Open Listings** (page " ++ (((result.get ("pagination")).get ("page"))).toDisplay
        ++ "/" ++ (((result.get ("pagination")).get ("totalPages"))).toDisplay
        ++ ", " ++ (((result.get ("pagination")).get ("total"))).toDisplay
        ++ " total)\n\n" ++ String.intercalate ("\n\n") (listings.map listingSummary) }),
   [{ method := "GET", url := API_BASE ++ "/api/listings", query := getListingsQuery a }])

/-- Handler of `get_listing` (tools.ts 1996–2037).  Unauthenticated GET. -/
def getListingH (a : Args) (o : Oracle) : HandlerOut :=
  let res := o 0
  ((if !res.ok then
    (if res.status == 404 then
      .error ("Listing not found: " ++ dispS a.listing_id)
    else
      .error ("API error: " ++ toString res.status))
  else
    let listing := res.body
    let agent := listing.get ("agent")
    let rep := listing.get ("agentReputation")
    .ok { text :=
      "# " ++ (listing.get ("title")).toDisplay
      ++ (if (listing.get ("isPro")).truthy then " 🏆 PRO" else "")
      ++ "\n\n**Listing ID:** " ++ (listing.get ("id")).toDisplay
      ++ "\n**Status:** " ++ (listing.get ("status")).toDisplay
      ++ "\n**Budget:** $" ++ (listing.get ("budgetUsdc")).toDisplay
      ++ " USDC\n**Category:** " ++ jsOr (listing.get ("category")) ("Not specified")
      ++ "\n**Work Mode:** " ++ jsOr (listing.get ("workMode")) ("Any")
      ++ "\n**Expires:** " ++ (listing.get ("expiresAt")).toDisplay
      ++ "\n**Applications:** " ++ jsOr ((listing.get ("_count")).get ("applications")) ("0")
      ++ (if (listing.get ("maxApplicants")).truthy then
            "/" ++ (listing.get ("maxApplicants")).toDisplay else "")
      ++ "\n\n## Description\n" ++ (listing.get ("description")).toDisplay
      ++ "\n\n## Requirements\n- **Skills:** " ++ orStr (joinComma (listing.get ("requiredSkills"))) ("None specified")
      ++ "\n- **Equipment:** " ++ orStr (joinComma (listing.get ("requiredEquipment"))) ("None specified")
      ++ "\n" ++ (if (listing.get ("location")).truthy then
                    "- **Location:** " ++ (listing.get ("location")).toDisplay else "")
      ++ "\n\n## Posted By\n- **Agent:** " ++ jsOr (agent.get ("name")) ("Unknown")
      ++ (if (agent.get ("domainVerified")).truthy then " ✅ Verified" else "")
      ++ "\n- **Description:** " ++ jsOr (agent.get ("description")) ("N/A")
      ++ "\n" ++ (if (agent.get ("websiteUrl")).truthy then
                    "- **Website:** " ++ (agent.get ("websiteUrl")).toDisplay else "")
      ++ "\n- **Jobs Completed:** " ++ jsOr (rep.get ("completedJobs")) ("0")
      ++ "\n- **Rating:** "
      ++ (if (rep.get ("avgRating")).truthy then toFixed1 (rep.get ("avgRating")) ++ "★" else "No ratings")
      ++ "\n- **Avg Payment Speed:** "
      ++ (if !(rep.get ("avgPaymentSpeedHours")).isNull then
            (rep.get ("avgPaymentSpeedHours")).toDisplay ++ " hours" else "N/A") }),
   [{ method := "GET", url := API_BASE ++ "/api/listings/" ++ dispS a.listing_id }])

/-- Per-application block of the `get_listing_applications` result
(tools.ts 2060–2073). -/
def applicationSummary (app : Json) : String :=
  let h := app.get ("human")
  let rep := h.get ("reputation")
  let ratingStr :=
    if (rep.get ("avgRating")).truthy then toFixed1 (rep.get ("avgRating")) ++ "★" else "No ratings"
  "- **" ++ jsOr (h.get ("name")) ("Unknown") ++ "** [" ++ (app.get ("status")).toDisplay
  ++ "]\n  Application ID: " ++ (app.get ("id")).toDisplay
  ++ "\n  Skills: " ++ orStr (joinComma (h.get ("skills"))) ("None listed")
  ++ "\n  Equipment: " ++ orStr (joinComma (h.get ("equipment"))) ("None listed")
  ++ "\n  Location: " ++ jsOr (h.get ("location")) ("Not specified")
  ++ "\n  Jobs Completed: " ++ jsOr (rep.get ("completedJobs")) ("0")
  ++ " | Rating: " ++ ratingStr
  ++ "\n  **Pitch:** \"" ++ (app.get ("pitch")).toDisplay
  ++ "\"\n  Applied: " ++ (app.get ("createdAt")).toDisplay

/-- Handler of `get_listing_applications` (tools.ts 2039–2081). -/
def getListingApplicationsH (a : Args) (o : Oracle) : HandlerOut :=
  if !(truthyS a.agent_key) then
    (.error ("agent_key is required."), [])
  else
    let res := o 0
    ((if !res.ok then
      .error (jsOr (res.body.get ("error")) ("API error: " ++ toString res.status))
    else
      let applications := res.body.asList
      if applications.length == 0 then
        .ok { text := "No applications yet for this listing." }
      else
        .ok { text :=
          "**Applications** (" ++ toString applications.length ++ " total)\n\n"
          ++ String.intercalate ("\n\n") (applications.map applicationSummary)
          ++ "\n\nTo hire an applicant, use `make_listing_offer` with the listing_id and application_id." }),
     [{ method := "GET", url := API_BASE ++ "/api/listings/" ++ dispS a.listing_id ++ "/applications",
        headers := [("X-Agent-Key", dispS a.agent_key)] }])

/-- Handler of `make_listing_offer` (tools.ts 2083–2108). -/
def makeListingOfferH (a : Args) (o : Oracle) : HandlerOut :=
  if !(truthyS a.agent_key) then
    (.error ("agent_key is required."), [])
  else
    let res := o 0
    ((if !res.ok then
      .error (jsOr2 (res.body.get ("message")) (res.body.get ("error"))
               ("API error: " ++ toString res.status))
    else
      let result := res.body
      .ok { text :=
        "**Offer Made!**\n\n**Job ID:** " ++ (result.get ("id")).toDisplay
        ++ "\n**Status:** " ++ (result.get ("status")).toDisplay
        ++ "\n\n⚠️ " ++ (result.get ("warning")).toDisplay
        ++ "\n\nThe human has been notified. Use `get_job_status` with job_id \""
        ++ (result.get ("id")).toDisplay
        ++ "\" to check if they accept.\nOnce accepted, send payment and use `mark_job_paid` to record it." }),
     [{ method := "POST",
        url := API_BASE ++ "/api/listings/" ++ dispS a.listing_id
          ++ "/applications/" ++ dispS a.application_id ++ "/offer",
        headers := [("Content-Type", "application/json"), ("X-Agent-Key", dispS a.agent_key)],
        body := some (mkBody [("confirm", some (.bool true))]) }])

/-- Handler of `cancel_listing` (tools.ts 2111–2133). -/
def cancelListingH (a : Args) (o : Oracle) : HandlerOut :=
  if !(truthyS a.agent_key) then
    (.error ("agent_key is required."), [])
  else
    let res := o 0
    ((if !res.ok then
      .error (jsOr2 (res.body.get ("message")) (res.body.get ("error"))
               ("API error: " ++ toString res.status))
    else
      .ok { text :=
        "**Listing Cancelled**\n\n**Listing ID:** " ++ (res.body.get ("id")).toDisplay
        ++ "\n**Status:** " ++ (res.body.get ("status")).toDisplay
        ++ "\n\n" ++ (res.body.get ("message")).toDisplay }),
     [{ method := "DELETE", url := API_BASE ++ "/api/listings/" ++ dispS a.listing_id,
        headers := [("X-Agent-Key", dispS a.agent_key)] }])

/-- Handler of `get_promo_status` (tools.ts 2135–2150).  Unauthenticated GET. -/
def getPromoStatusH (_a : Args) (o : Oracle) : HandlerOut :=
  let res := o 0
  ((if !res.ok then
    .error ("API error: " ++ toString res.status)
  else
    let result := res.body
    .ok { text :=
      "**Launch Promo Status**\n\n**Enabled:** "
      ++ (if (result.get ("enabled")).truthy then "Yes" else "No")
      ++ "\n**Total Slots:** " ++ (result.get ("total")).toDisplay
      ++ "\n**Claimed:** " ++ (result.get ("claimed")).toDisplay
      ++ "\n**Remaining:** " ++ (result.get ("remaining")).toDisplay
      ++ "\n\n"
      ++ (if (result.get ("remaining")).gtNum 0 then
            "Free PRO slots are available! Activate via social post, then use `claim_free_pro_upgrade` to upgrade."
          else "All free PRO slots have been claimed.") }),
   [{ method := "GET", url := API_BASE ++ "/api/agents/activate/promo-status" }])

/-- Handler of `claim_free_pro_upgrade` (tools.ts 2152–2179). -/
def claimFreeProUpgradeH (a : Args) (o : Oracle) : HandlerOut :=
  if !(truthyS a.agent_key) then
    (.error ("agent_key is required. Register and activate (BASIC tier) first."), [])
  else
    let res := o 0
    ((if !res.ok then
      .error (jsOr2 (res.body.get ("message")) (res.body.get ("error"))
               ("API error: " ++ toString res.status))
    else
      let result := res.body
      .ok { text :=
        "**PRO Tier Unlocked — Free!**\n\n**Status:** " ++ (result.get ("status")).toDisplay
        ++ "\n**Tier:** " ++ (result.get ("tier")).toDisplay
        ++ "\n**Upgraded At:** " ++ (result.get ("promoUpgradedAt")).toDisplay
        ++ "\n**Expires:** " ++ (result.get ("activationExpiresAt")).toDisplay
        ++ "\n\n" ++ (result.get ("message")).toDisplay
        ++ "\n\nYou now have PRO limits: 15 job offers/day, 50 profile views/day, 60-day duration." }),
     [{ method := "POST", url := API_BASE ++ "/api/agents/activate/promo-upgrade",
        headers := [("Content-Type", "application/json"), ("X-Agent-Key", dispS a.agent_key)] }])

/-! ## Dispatch and the outer catch (tools.ts 927–2223) -/

/-- The names of the declared tools (tools.ts 170–925), in declaration
order. -/
def toolNames : List String :=
  ["search_humans", "get_human", "register_agent", "get_agent_profile",
   "verify_agent_domain", "create_job_offer", "get_job_status", "mark_job_paid",
   "check_humanity_status", "leave_review", "get_human_profile",
   "request_activation_code", "verify_social_activation", "get_activation_status",
   "get_payment_activation", "verify_payment_activation", "start_stream",
   "record_stream_tick", "pause_stream", "resume_stream", "stop_stream",
   "send_job_message", "get_job_messages", "create_listing", "get_listings",
   "get_listing", "get_listing_applications", "make_listing_offer",
   "cancel_listing", "get_promo_status", "claim_free_pro_upgrade"]

/-- The body of the `CallToolRequestSchema` handler before the outer
`catch`: dispatch on the tool name (the chain of `if (name === ...)`
tests, tools.ts 931–2211) ending in the `Unknown tool` result
(tools.ts 2213–2216). -/
def callToolEx (name : String) (a : Args) (o : Oracle) : HandlerOut :=
  if name == "search_humans" then searchHumansH a o
  else if name == "get_human" then getHumanH a o
  else if name == "register_agent" then registerAgentH a o
  else if name == "get_agent_profile" then getAgentProfileH a o
  else if name == "verify_agent_domain" then verifyAgentDomainH a o
  else if name == "create_job_offer" then createJobOfferH a o
  else if name == "get_job_status" then getJobStatusH a o
  else if name == "mark_job_paid" then markJobPaidH a o
  else if name == "check_humanity_status" then checkHumanityStatusH a o
  else if name == "get_human_profile" then getHumanProfileH a o
  else if name == "request_activation_code" then requestActivationCodeH a o
  else if name == "verify_social_activation" then verifySocialActivationH a o
  else if name == "get_activation_status" then getActivationStatusH a o
  else if name == "get_payment_activation" then getPaymentActivationH a o
  else if name == "verify_payment_activation" then verifyPaymentActivationH a o
  else if name == "start_stream" then startStreamH a o
  else if name == "record_stream_tick" then recordStreamTickH a o
  else if name == "pause_stream" then pauseStreamH a o
  else if name == "resume_stream" then resumeStreamH a o
  else if name == "stop_stream" then stopStreamH a o
  else if name == "send_job_message" then sendJobMessageH a o
  else if name == "get_job_messages" then getJobMessagesH a o
  else if name == "create_listing" then createListingH a o
  else if name == "get_listings" then getListingsH a o
  else if name == "get_listing" then getListingH a o
  else if name == "get_listing_applications" then getListingApplicationsH a o
  else if name == "make_listing_offer" then makeListingOfferH a o
  else if name == "cancel_listing" then cancelListingH a o
  else if name == "get_promo_status" then getPromoStatusH a o
  else if name == "claim_free_pro_upgrade" then claimFreeProUpgradeH a o
  else if name == "leave_review" then leaveReviewH a o
  else (.ok { text := "Unknown tool: " ++ name, isError := true }, [])

/-- One tool invocation as the caller observes it: the outer
`try`/`catch` (tools.ts 930, 2217–2222) converts any thrown `Error` into
a `ToolResult` with text `Error: message` and `isError: true`. -/
def callTool (name : String) (a : Args) (o : Oracle) : ToolResult :=
  match (callToolEx name a o).1 with
  | .ok r => r
  | .error m => { text := "Error: " ++ m, isError := true }

/-- The HTTP requests an invocation sent to the collaborator. -/
def requestsOf (name : String) (a : Args) (o : Oracle) : List Request :=
  (callToolEx name a o).2

/-- One queued tool invocation: the tool name, its own argument bag, and
the collaborator responses it will observe. -/
structure Invocation where
  tool : String
  args : Args
  oracle : Oracle

/-- A sequence of invocations processed by the server.  The
`CallToolRequestSchema` closure captures no mutable binding (its free
variables are the `server` object and the module constant `API_BASE`),
so the batch is the pointwise image of `callTool` — there is no state to
thread from one invocation to the next. -/
def runBatch (calls : List Invocation) : List ToolResult :=
  calls.map (fun c => callTool c.tool c.args c.oracle)

/-! ## StreamPaymentController state model

Modelled from the spec: the authoritative backend that maintains
`StreamState` for a `MICRO_TRANSFER` stream is an external collaborator
(the repository only contains its caller, e.g. the `record_stream_tick`
handler).  The definitions below follow spec §3 (`StreamState`) and
§4.3 (`StreamPaymentController`) verbatim: start opens the first pending
tick, a verified tick must match the agreed per-interval rate, a
successful tick increments the tick count, adds to the cumulative total
and opens the next pending tick unless the max-tick cap is reached (in
which case the stream auto-stops), pause skips the pending tick, resume
opens a new one, and stop ends the stream permanently. -/

/-- Stream sub-status (spec §3: `AWAITING_START|ACTIVE|PAUSED|STOPPED`). -/
inductive StreamSub where
  | awaitingStart : StreamSub
  | active : StreamSub
  | paused : StreamSub
  | stopped : StreamSub
deriving DecidableEq, Repr

/-- `StreamState` of a `MICRO_TRANSFER` job (spec §3): tick count,
cumulative amount paid, optional max-tick cap, sub-status, plus the
log of verified tick amounts and whether a pending tick is open. -/
structure MicroStream where
  rateUsdc : Nat
  maxTicks : Option Nat
  tickCount : Nat
  totalPaid : Nat
  verifiedTicks : List Nat
  sub : StreamSub
  pendingTick : Bool
deriving DecidableEq, Repr

/-- The freshly created stream of a `STREAM`/`MICRO_TRANSFER` job. -/
def mkStream (rate : Nat) (mt : Option Nat) : MicroStream :=
  { rateUsdc := rate, maxTicks := mt, tickCount := 0, totalPaid := 0,
    verifiedTicks := [], sub := .awaitingStart, pendingTick := false }

/-- Operations of the streaming sub-protocol (spec §4.3). -/
inductive StreamOp where
  | start : StreamOp
  | recordTick : Nat → StreamOp
  | pause : StreamOp
  | resume : StreamOp
  | stop : StreamOp

/-- Structured errors of the streaming sub-protocol (spec §4.3). -/
inductive StreamErr where
  | invalidState : StreamErr
  | noPendingTick : StreamErr
  | tickVerificationFailed : StreamErr
  | alreadyStopped : StreamErr
deriving DecidableEq, Repr

/-- Whether recording one more tick reaches the max-tick cap (spec §4.3). -/
def reachedMaxAfter (s : MicroStream) : Bool :=
  match s.maxTicks with
  | some m => s.tickCount + 1 ≥ m
  | none => false

/-- One transition of the `MICRO_TRANSFER` sub-protocol (spec §4.3). -/
def streamStep (s : MicroStream) (op : StreamOp) : Except StreamErr MicroStream :=
  match op with
  | .start =>
      if s.sub = .awaitingStart then
        .ok { s with sub := .active, pendingTick := true }
      else .error .invalidState
  | .recordTick amount =>
      if s.sub ≠ .active then .error .invalidState
      else if !s.pendingTick then .error .noPendingTick
      else if amount ≠ s.rateUsdc then .error .tickVerificationFailed
      else
        let reachedMax : Bool := reachedMaxAfter s
        .ok { s with
          tickCount := s.tickCount + 1,
          totalPaid := s.totalPaid + s.rateUsdc,
          verifiedTicks := s.verifiedTicks ++ [amount],
          pendingTick := !reachedMax,
          sub := if reachedMax then .stopped else .active }
  | .pause =>
      if s.sub = .active then .ok { s with sub := .paused, pendingTick := false }
      else .error .invalidState
  | .resume =>
      if s.sub = .paused then .ok { s with sub := .active, pendingTick := true }
      else .error .invalidState
  | .stop =>
      if s.sub = .stopped then .error .alreadyStopped
      else if s.sub = .active ∨ s.sub = .paused then
        .ok { s with sub := .stopped, pendingTick := false }
      else .error .invalidState

/-- A failed operation leaves the stream unchanged; a successful one
commits the transition. -/
def streamRun (s : MicroStream) (op : StreamOp) : MicroStream :=
  match streamStep s op with
  | .ok s2 => s2
  | .error _ => s

/-- Run a whole trace of operations. -/
def streamRunAll (s : MicroStream) (ops : List StreamOp) : MicroStream :=
  ops.foldl streamRun s

/-- The bookkeeping invariant of a `MICRO_TRANSFER` stream (spec §3
`StreamState` invariant and §8): cumulative paid equals the sum of
verified tick amounts, every verified tick matches the agreed rate, and
the tick count respects the max-tick cap (with a pending tick only open
strictly below the cap). -/
def streamInv (s : MicroStream) : Prop :=
  s.totalPaid = s.verifiedTicks.sum ∧
  s.totalPaid = s.tickCount * s.rateUsdc ∧
  (∀ t ∈ s.verifiedTicks, t = s.rateUsdc) ∧
  s.verifiedTicks.length = s.tickCount ∧
  (∀ m, s.maxTicks = some m → s.tickCount ≤ m) ∧
  (s.sub = .awaitingStart → s.tickCount = 0) ∧
  ((s.sub = .active ∨ s.sub = .paused) → ∀ m, s.maxTicks = some m → s.tickCount < m) ∧
  (∀ m, s.maxTicks = some m → 1 ≤ m)

/-! ## Dispatch bridge lemmas

One lemma per declared tool, reducing a named invocation to its handler. -/

theorem dsp_search_humans (a : Args) (o : Oracle) :
    callToolEx ("search_humans") a o = searchHumansH a o := rfl

theorem dsp_get_human (a : Args) (o : Oracle) :
    callToolEx ("get_human") a o = getHumanH a o := rfl

theorem dsp_register_agent (a : Args) (o : Oracle) :
    callToolEx ("register_agent") a o = registerAgentH a o := rfl

theorem dsp_get_agent_profile (a : Args) (o : Oracle) :
    callToolEx ("get_agent_profile") a o = getAgentProfileH a o := rfl

theorem dsp_verify_agent_domain (a : Args) (o : Oracle) :
    callToolEx ("verify_agent_domain") a o = verifyAgentDomainH a o := rfl

theorem dsp_create_job_offer (a : Args) (o : Oracle) :
    callToolEx ("create_job_offer") a o = createJobOfferH a o := rfl

theorem dsp_get_job_status (a : Args) (o : Oracle) :
    callToolEx ("get_job_status") a o = getJobStatusH a o := rfl

theorem dsp_mark_job_paid (a : Args) (o : Oracle) :
    callToolEx ("mark_job_paid") a o = markJobPaidH a o := rfl

theorem dsp_check_humanity_status (a : Args) (o : Oracle) :
    callToolEx ("check_humanity_status") a o = checkHumanityStatusH a o := rfl

theorem dsp_get_human_profile (a : Args) (o : Oracle) :
    callToolEx ("get_human_profile") a o = getHumanProfileH a o := rfl

theorem dsp_request_activation_code (a : Args) (o : Oracle) :
    callToolEx ("request_activation_code") a o = requestActivationCodeH a o := rfl

theorem dsp_verify_social_activation (a : Args) (o : Oracle) :
    callToolEx ("verify_social_activation") a o = verifySocialActivationH a o := rfl

theorem dsp_get_activation_status (a : Args) (o : Oracle) :
    callToolEx ("get_activation_status") a o = getActivationStatusH a o := rfl

theorem dsp_get_payment_activation (a : Args) (o : Oracle) :
    callToolEx ("get_payment_activation") a o = getPaymentActivationH a o := rfl

theorem dsp_verify_payment_activation (a : Args) (o : Oracle) :
    callToolEx ("verify_payment_activation") a o = verifyPaymentActivationH a o := rfl

theorem dsp_start_stream (a : Args) (o : Oracle) :
    callToolEx ("start_stream") a o = startStreamH a o := rfl

theorem dsp_record_stream_tick (a : Args) (o : Oracle) :
    callToolEx ("record_stream_tick") a o = recordStreamTickH a o := rfl

theorem dsp_pause_stream (a : Args) (o : Oracle) :
    callToolEx ("pause_stream") a o = pauseStreamH a o := rfl

theorem dsp_resume_stream (a : Args) (o : Oracle) :
    callToolEx ("resume_stream") a o = resumeStreamH a o := rfl

theorem dsp_stop_stream (a : Args) (o : Oracle) :
    callToolEx ("stop_stream") a o = stopStreamH a o := rfl

theorem dsp_send_job_message (a : Args) (o : Oracle) :
    callToolEx ("send_job_message") a o = sendJobMessageH a o := rfl

theorem dsp_get_job_messages (a : Args) (o : Oracle) :
    callToolEx ("get_job_messages") a o = getJobMessagesH a o := rfl

theorem dsp_create_listing (a : Args) (o : Oracle) :
    callToolEx ("create_listing") a o = createListingH a o := rfl

theorem dsp_get_listings (a : Args) (o : Oracle) :
    callToolEx ("get_listings") a o = getListingsH a o := rfl

theorem dsp_get_listing (a : Args) (o : Oracle) :
    callToolEx ("get_listing") a o = getListingH a o := rfl

theorem dsp_get_listing_applications (a : Args) (o : Oracle) :
    callToolEx ("get_listing_applications") a o = getListingApplicationsH a o := rfl

theorem dsp_make_listing_offer (a : Args) (o : Oracle) :
    callToolEx ("make_listing_offer") a o = makeListingOfferH a o := rfl

theorem dsp_cancel_listing (a : Args) (o : Oracle) :
    callToolEx ("cancel_listing") a o = cancelListingH a o := rfl

theorem dsp_get_promo_status (a : Args) (o : Oracle) :
    callToolEx ("get_promo_status") a o = getPromoStatusH a o := rfl

theorem dsp_claim_free_pro_upgrade (a : Args) (o : Oracle) :
    callToolEx ("claim_free_pro_upgrade") a o = claimFreeProUpgradeH a o := rfl

theorem dsp_leave_review (a : Args) (o : Oracle) :
    callToolEx ("leave_review") a o = leaveReviewH a o := rfl

/-! ## Claim C10 -/

/-- Claim C10: in `search_humans` and `get_listings`, a numeric filter
argument whose value is 0 is omitted from the query sent to the
collaborator — the invocation is indistinguishable (same requests) from
one where the caller did not supply the argument at all.  Covered fields:
`lat`, `lng`, `radius`, `max_rate` for `search_humans`; `page`, `limit`,
`min_budget`, `max_budget`, `lat`, `lng`, `radius` for `get_listings`. -/
theorem C10_zero_numeric_filters_omitted :
    ∀ (a : Args) (o : Oracle),
      (requestsOf ("search_humans") { a with lat := some 0 } o
        = requestsOf ("search_humans") { a with lat := none } o)
    ∧ (requestsOf ("search_humans") { a with lng := some 0 } o
        = requestsOf ("search_humans") { a with lng := none } o)
    ∧ (requestsOf ("search_humans") { a with radius := some 0 } o
        = requestsOf ("search_humans") { a with radius := none } o)
    ∧ (requestsOf ("search_humans") { a with max_rate := some 0 } o
        = requestsOf ("search_humans") { a with max_rate := none } o)
    ∧ (requestsOf ("get_listings") { a with page := some 0 } o
        = requestsOf ("get_listings") { a with page := none } o)
    ∧ (requestsOf ("get_listings") { a with limit := some 0 } o
        = requestsOf ("get_listings") { a with limit := none } o)
    ∧ (requestsOf ("get_listings") { a with min_budget := some 0 } o
        = requestsOf ("get_listings") { a with min_budget := none } o)
    ∧ (requestsOf ("get_listings") { a with max_budget := some 0 } o
        = requestsOf ("get_listings") { a with max_budget := none } o)
    ∧ (requestsOf ("get_listings") { a with lat := some 0 } o
        = requestsOf ("get_listings") { a with lat := none } o)
    ∧ (requestsOf ("get_listings") { a with lng := some 0 } o
        = requestsOf ("get_listings") { a with lng := none } o)
    ∧ (requestsOf ("get_listings") { a with radius := some 0 } o
        = requestsOf ("get_listings") { a with radius := none } o) := by
  intro a o
  refine ⟨?_, ?_, ?_, ?_, ?_, ?_, ?_, ?_, ?_, ?_, ?_⟩ <;> rfl

/-! ## Claim C7 -/

/-- Claim C7: the browse/read operations `search_humans`, `get_human`,
`get_job_status`, `get_listings`, `get_listing` and `get_promo_status`
each send exactly one GET request with an empty header list (so no agent
credential), for every combination of arguments — they are read-only and
unauthenticated. -/
theorem C7_browse_reads_are_unauthenticated_gets :
    ∀ (a : Args) (o : Oracle),
      (∃ r, requestsOf ("search_humans") a o = [r] ∧ r.method = "GET" ∧ r.headers = [])
    ∧ (∃ r, requestsOf ("get_human") a o = [r] ∧ r.method = "GET" ∧ r.headers = [])
    ∧ (∃ r, requestsOf ("get_job_status") a o = [r] ∧ r.method = "GET" ∧ r.headers = [])
    ∧ (∃ r, requestsOf ("get_listings") a o = [r] ∧ r.method = "GET" ∧ r.headers = [])
    ∧ (∃ r, requestsOf ("get_listing") a o = [r] ∧ r.method = "GET" ∧ r.headers = [])
    ∧ (∃ r, requestsOf ("get_promo_status") a o = [r] ∧ r.method = "GET" ∧ r.headers = []) := by
  intro a o
  exact ⟨⟨_, rfl, rfl, rfl⟩, ⟨_, rfl, rfl, rfl⟩, ⟨_, rfl, rfl, rfl⟩,
         ⟨_, rfl, rfl, rfl⟩, ⟨_, rfl, rfl, rfl⟩, ⟨_, rfl, rfl, rfl⟩⟩

/-! ## Substring helper -/

/-- Boolean prefix test on character lists. -/
def charsPrefix : List Char → List Char → Bool
  | [], _ => true
  | _ :: _, [] => false
  | c :: cs, d :: ds => c == d && charsPrefix cs ds

/-- Boolean infix test on character lists. -/
def charsInfix (pat : List Char) : List Char → Bool
  | [] => pat.isEmpty
  | s@(_ :: tl) => charsPrefix pat s || charsInfix pat tl

/-- `s` contains `pat` as a substring. -/
def strContains (s pat : String) : Bool := charsInfix pat.toList s.toList

/-! ## Claim C3 -/

/-- A STREAM job in `ACCEPTED` status with the `SUPERFLUID` method, as
parsed from a `get_job_status` response. -/
def jobAcceptedSuperfluid : Json :=
  .obj [("status", .str ("ACCEPTED")), ("paymentMode", .str ("STREAM")),
        ("streamMethod", .str ("SUPERFLUID"))]

/-- A STREAM job in `ACCEPTED` status with the `MICRO_TRANSFER` method. -/
def jobAcceptedMicro : Json :=
  .obj [("status", .str ("ACCEPTED")), ("paymentMode", .str ("STREAM")),
        ("streamMethod", .str ("MICRO_TRANSFER"))]

/-- A non-stream job in `ACCEPTED` status. -/
def jobAcceptedOneTime : Json :=
  .obj [("status", .str ("ACCEPTED")), ("paymentMode", .str ("ONE_TIME")),
        ("priceUsdc", .str ("25"))]

/-- A STREAM job in `STREAMING` status, `MICRO_TRANSFER` method. -/
def jobStreamingMicro : Json :=
  .obj [("status", .str ("STREAMING")), ("paymentMode", .str ("STREAM")),
        ("streamSummary", .obj [("method", .str ("MICRO_TRANSFER")), ("totalPaid", .str ("50"))])]

/-- A STREAM job in `STREAMING` status, `SUPERFLUID` method. -/
def jobStreamingSuperfluid : Json :=
  .obj [("status", .str ("STREAMING")), ("paymentMode", .str ("STREAM")),
        ("streamSummary", .obj [("method", .str ("SUPERFLUID")), ("totalPaid", .str ("50"))])]

/-- A STREAM job in `PAUSED` status. -/
def jobPausedStream : Json :=
  .obj [("status", .str ("PAUSED")), ("paymentMode", .str ("STREAM"))]

/-- Claim C3: the `get_job_status` next-step guidance follows the
streaming sub-protocol.  In `ACCEPTED` a STREAM job is directed to
`start_stream` — with the Superfluid create-flow-first instruction kept
distinct from the micro-transfer lock-network instruction — and never to
`mark_job_paid`; in `STREAMING` the guidance is `record_stream_tick` for
micro-transfer and `pause_stream`/`stop_stream` for Superfluid; in
`PAUSED` it is `resume_stream` or `stop_stream`; a non-stream `ACCEPTED`
job is directed to `mark_job_paid`.  The last conjunct checks the
guidance as surfaced through the full `get_job_status` result text. -/
theorem C3_next_step_follows_stream_protocol :
    (jobNextStep jobAcceptedSuperfluid
      = "Human accepted! Create a Superfluid flow to their wallet, then use `start_stream` with your sender address to verify."
     ∧ strContains (jobNextStep jobAcceptedSuperfluid) ("start_stream") = true
     ∧ strContains (jobNextStep jobAcceptedSuperfluid) ("mark_job_paid") = false)
  ∧ (jobNextStep jobAcceptedMicro
      = "Human accepted! Use `start_stream` to lock the network/token and start sending payments."
     ∧ strContains (jobNextStep jobAcceptedMicro) ("start_stream") = true
     ∧ strContains (jobNextStep jobAcceptedMicro) ("mark_job_paid") = false)
  ∧ jobNextStep jobAcceptedSuperfluid ≠ jobNextStep jobAcceptedMicro
  ∧ (jobNextStep jobStreamingMicro
      = "Stream active via micro-transfer. Total paid: $50 USDC. Use `record_stream_tick` to submit each payment."
     ∧ strContains (jobNextStep jobStreamingMicro) ("record_stream_tick") = true)
  ∧ (jobNextStep jobStreamingSuperfluid
      = "Stream active via Superfluid. Total streamed: $50 USDC. Use `pause_stream` or `stop_stream` to manage."
     ∧ strContains (jobNextStep jobStreamingSuperfluid) ("pause_stream") = true
     ∧ strContains (jobNextStep jobStreamingSuperfluid) ("stop_stream") = true
     ∧ strContains (jobNextStep jobStreamingSuperfluid) ("record_stream_tick") = false
     ∧ strContains (jobNextStep jobStreamingSuperfluid) ("mark_job_paid") = false)
  ∧ (jobNextStep jobPausedStream
      = "Stream is paused. Use `resume_stream` to continue or `stop_stream` to end permanently."
     ∧ strContains (jobNextStep jobPausedStream) ("resume_stream") = true
     ∧ strContains (jobNextStep jobPausedStream) ("stop_stream") = true)
  ∧ (jobNextStep jobAcceptedOneTime
      = "Human accepted! Send $25 USDC to their wallet, then use `mark_job_paid` with the transaction hash."
     ∧ strContains (jobNextStep jobAcceptedOneTime) ("mark_job_paid") = true)
  ∧ (strContains (callTool ("get_job_status") { job_id := some ("j1") }
        (fun _ => { ok := true, status := 200, body := jobAcceptedSuperfluid })).text
        ("start_stream") = true
     ∧ strContains (callTool ("get_job_status") { job_id := some ("j1") }
        (fun _ => { ok := true, status := 200, body := jobAcceptedSuperfluid })).text
        ("mark_job_paid") = false) := by
  refine ⟨⟨rfl, by decide, by decide⟩, ⟨rfl, by decide, by decide⟩, by decide,
          ⟨rfl, by decide⟩, ⟨rfl, by decide, by decide, by decide, by decide⟩,
          ⟨rfl, by decide, by decide⟩, ⟨rfl, by decide⟩, by decide, by decide⟩

/-! ## Claim C9 -/

/-- Claim C9: when the job-creation request of `create_job_offer`
succeeds but the follow-up `getHuman` fetch fails, the whole invocation
returns an `isError` result whose text is the `Human not found` message —
a value that does not depend on the created job at all (in particular it
contains no job id), so the caller cannot distinguish it from a creation
failure. -/
theorem C9_post_creation_fetch_failure_masks_created_job :
    ∀ (a : Args) (o : Oracle) (k : String),
      a.agent_key = some k → k ≠ "" →
      (o 0).ok = true → (o 1).ok = false →
      callTool ("create_job_offer") a o
        = { text := "Error: " ++ ("Human not found: " ++ dispS a.human_id), isError := true }
      ∧ requestsOf ("create_job_offer") a o
        = [createJobOfferReq a, getHumanReq (dispS a.human_id)] := by
  intro a o k hk hne h0 h1
  have ht : truthyS a.agent_key = true := by
    rw [hk]
    simp [truthyS, hne]
  constructor
  · unfold callTool
    rw [dsp_create_job_offer]
    unfold createJobOfferH
    simp only [ht, h0, h1, Bool.not_true, Bool.not_false]
    rfl
  · unfold requestsOf
    rw [dsp_create_job_offer]
    unfold createJobOfferH
    simp only [ht, h0, h1, Bool.not_true, Bool.not_false]
    rfl

/-- Witness for C9 at a concrete input: the collaborator creates job
`job77`, the profile fetch 404s, and the caller sees only the
`Human not found` error. -/
theorem C9_witness :
    callTool ("create_job_offer")
        { agent_key := some ("hp_key1"), human_id := some ("h9"),
          title := some ("T"), description := some ("D"), price_usdc := some 25,
          agent_id := some ("agent-1") }
        (fun i => if i == 0 then
            { ok := true, status := 200,
              body := .obj [("id", .str ("job77")), ("status", .str ("PENDING"))] }
          else { ok := false, status := 404, body := .null })
      = { text := "Error: " ++ ("Human not found: " ++ dispS (some ("h9"))), isError := true } :=
  (C9_post_creation_fetch_failure_masks_created_job
    { agent_key := some ("hp_key1"), human_id := some ("h9"),
      title := some ("T"), description := some ("D"), price_usdc := some 25,
      agent_id := some ("agent-1") }
    (fun i => if i == 0 then
        { ok := true, status := 200,
          body := .obj [("id", .str ("job77")), ("status", .str ("PENDING"))] }
      else { ok := false, status := 404, body := .null })
    ("hp_key1") rfl (by decide) rfl rfl).1

/-! ## Claim C5 -/

/-- Claim C5 counterexample: `leave_review` invoked with `rating := 7` —
an integer outside `[1,5]` — sends the review request to the collaborator
(carrying the out-of-range rating verbatim) and, when the collaborator
accepts, reports success: no local rating validation happens and no
out-of-range-rating error is produced. -/
theorem C5_counterexample_rating7_is_sent :
    ¬(1 ≤ (7 : Int) ∧ (7 : Int) ≤ 5)
  ∧ requestsOf ("leave_review") { job_id := some ("job-1"), rating := some 7 }
      (fun _ => { ok := true, status := 200,
                  body := .obj [("id", .str ("rev-1")), ("rating", .num 7)] })
      = [leaveReviewReq { job_id := some ("job-1"), rating := some 7 }]
  ∧ (leaveReviewReq { job_id := some ("job-1"), rating := some 7 }).body
      = some (.obj [("rating", .num 7)])
  ∧ (callTool ("leave_review") { job_id := some ("job-1"), rating := some 7 }
      (fun _ => { ok := true, status := 200,
                  body := .obj [("id", .str ("rev-1")), ("rating", .num 7)] })).isError
      = false := by
  refine ⟨by decide, rfl, rfl, rfl⟩

/-- Claim C5 as amended: `leave_review` performs no local rating
validation — every invocation, whatever the rating, sends exactly one
review request whose body carries the caller's `rating` and `comment`
verbatim, and an out-of-range rating is rejected only by the
collaborator, whose reason text the handler surfaces. -/
theorem C5_amended_no_local_rating_validation :
    ∀ (a : Args) (o : Oracle),
      requestsOf ("leave_review") a o = [leaveReviewReq a]
    ∧ (leaveReviewReq a).body
        = some (mkBody [("rating", jnumOpt a.rating), ("comment", jstrOpt a.comment)])
    ∧ ∀ (r : String), (o 0).ok = false → (o 0).body.get ("reason") = .str r → r ≠ "" →
        callTool ("leave_review") a o = { text := "Error: " ++ r, isError := true } := by
  intro a o
  refine ⟨rfl, rfl, ?_⟩
  intro r h0 hr hne
  unfold callTool
  rw [dsp_leave_review]
  unfold leaveReviewH
  simp only [h0, hr, Bool.not_false]
  simp [jsOr2, Json.truthy, Json.toDisplay, hne]

/-- Witness for the amended C5 at a concrete input: rating 7 is rejected
by the collaborator with its own reason text, which the handler passes
through. -/
theorem C5_amended_witness :
    callTool ("leave_review") { job_id := some ("job-1"), rating := some 7 }
        (fun _ => { ok := false, status := 400,
                    body := .obj [("reason", .str ("Job is not COMPLETED"))] })
      = { text := "Error: " ++ "Job is not COMPLETED", isError := true } :=
  ((C5_amended_no_local_rating_validation
      { job_id := some ("job-1"), rating := some 7 }
      (fun _ => { ok := false, status := 400,
                  body := .obj [("reason", .str ("Job is not COMPLETED"))] })).2.2
    ("Job is not COMPLETED") rfl rfl (by decide))

/-! ## Local credential-gate lemmas

For every handler that checks `agent_key` locally, a missing or empty key
short-circuits to a thrown error with no request sent. -/

theorem kg_create_job_offer (a : Args) (o : Oracle) (h : truthyS a.agent_key = false) :
    callToolEx ("create_job_offer") a o
      = (.error ("agent_key is required. Register first with register_agent to get an API key."), []) := by
  rw [dsp_create_job_offer]; unfold createJobOfferH; rw [h]; rfl

theorem kg_get_human_profile (a : Args) (o : Oracle) (h : truthyS a.agent_key = false) :
    callToolEx ("get_human_profile") a o
      = (.error ("agent_key is required. Register and activate first."), []) := by
  rw [dsp_get_human_profile]; unfold getHumanProfileH; rw [h]; rfl

theorem kg_request_activation_code (a : Args) (o : Oracle) (h : truthyS a.agent_key = false) :
    callToolEx ("request_activation_code") a o = (.error ("agent_key is required."), []) := by
  rw [dsp_request_activation_code]; unfold requestActivationCodeH; rw [h]; rfl

theorem kg_verify_social_activation (a : Args) (o : Oracle) (h : truthyS a.agent_key = false) :
    callToolEx ("verify_social_activation") a o = (.error ("agent_key is required."), []) := by
  rw [dsp_verify_social_activation]; unfold verifySocialActivationH; rw [h]; rfl

theorem kg_get_activation_status (a : Args) (o : Oracle) (h : truthyS a.agent_key = false) :
    callToolEx ("get_activation_status") a o = (.error ("agent_key is required."), []) := by
  rw [dsp_get_activation_status]; unfold getActivationStatusH; rw [h]; rfl

theorem kg_get_payment_activation (a : Args) (o : Oracle) (h : truthyS a.agent_key = false) :
    callToolEx ("get_payment_activation") a o = (.error ("agent_key is required."), []) := by
  rw [dsp_get_payment_activation]; unfold getPaymentActivationH; rw [h]; rfl

theorem kg_verify_payment_activation (a : Args) (o : Oracle) (h : truthyS a.agent_key = false) :
    callToolEx ("verify_payment_activation") a o = (.error ("agent_key is required."), []) := by
  rw [dsp_verify_payment_activation]; unfold verifyPaymentActivationH; rw [h]; rfl

theorem kg_start_stream (a : Args) (o : Oracle) (h : truthyS a.agent_key = false) :
    callToolEx ("start_stream") a o = (.error ("agent_key is required."), []) := by
  rw [dsp_start_stream]; unfold startStreamH; rw [h]; rfl

theorem kg_record_stream_tick (a : Args) (o : Oracle) (h : truthyS a.agent_key = false) :
    callToolEx ("record_stream_tick") a o = (.error ("agent_key is required."), []) := by
  rw [dsp_record_stream_tick]; unfold recordStreamTickH; rw [h]; rfl

theorem kg_pause_stream (a : Args) (o : Oracle) (h : truthyS a.agent_key = false) :
    callToolEx ("pause_stream") a o = (.error ("agent_key is required."), []) := by
  rw [dsp_pause_stream]; unfold pauseStreamH; rw [h]; rfl

theorem kg_resume_stream (a : Args) (o : Oracle) (h : truthyS a.agent_key = false) :
    callToolEx ("resume_stream") a o = (.error ("agent_key is required."), []) := by
  rw [dsp_resume_stream]; unfold resumeStreamH; rw [h]; rfl

theorem kg_stop_stream (a : Args) (o : Oracle) (h : truthyS a.agent_key = false) :
    callToolEx ("stop_stream") a o = (.error ("agent_key is required."), []) := by
  rw [dsp_stop_stream]; unfold stopStreamH; rw [h]; rfl

theorem kg_send_job_message (a : Args) (o : Oracle) (h : truthyS a.agent_key = false) :
    callToolEx ("send_job_message") a o = (.error ("agent_key is required."), []) := by
  rw [dsp_send_job_message]; unfold sendJobMessageH; rw [h]; rfl

theorem kg_get_job_messages (a : Args) (o : Oracle) (h : truthyS a.agent_key = false) :
    callToolEx ("get_job_messages") a o = (.error ("agent_key is required."), []) := by
  rw [dsp_get_job_messages]; unfold getJobMessagesH; rw [h]; rfl

theorem kg_create_listing (a : Args) (o : Oracle) (h : truthyS a.agent_key = false) :
    callToolEx ("create_listing") a o = (.error ("agent_key is required."), []) := by
  rw [dsp_create_listing]; unfold createListingH; rw [h]; rfl

theorem kg_get_listing_applications (a : Args) (o : Oracle) (h : truthyS a.agent_key = false) :
    callToolEx ("get_listing_applications") a o = (.error ("agent_key is required."), []) := by
  rw [dsp_get_listing_applications]; unfold getListingApplicationsH; rw [h]; rfl

theorem kg_make_listing_offer (a : Args) (o : Oracle) (h : truthyS a.agent_key = false) :
    callToolEx ("make_listing_offer") a o = (.error ("agent_key is required."), []) := by
  rw [dsp_make_listing_offer]; unfold makeListingOfferH; rw [h]; rfl

theorem kg_cancel_listing (a : Args) (o : Oracle) (h : truthyS a.agent_key = false) :
    callToolEx ("cancel_listing") a o = (.error ("agent_key is required."), []) := by
  rw [dsp_cancel_listing]; unfold cancelListingH; rw [h]; rfl

theorem kg_claim_free_pro_upgrade (a : Args) (o : Oracle) (h : truthyS a.agent_key = false) :
    callToolEx ("claim_free_pro_upgrade") a o
      = (.error ("agent_key is required. Register and activate (BASIC tier) first."), []) := by
  rw [dsp_claim_free_pro_upgrade]; unfold claimFreeProUpgradeH; rw [h]; rfl

/-! ## Claim C1 -/

/-- Claim C1 counterexample: `mark_job_paid` and `leave_review` do not
attach any agent credential.  Even with an `agent_key` value present in
the argument bag, the single request each handler sends carries only the
`Content-Type` header — no `X-Agent-Key` — so the claim that every listed
mutating operation forwards the caller's credential is false for these
two. -/
theorem C1_counterexample_mark_paid_and_review_send_no_credential :
    requestsOf ("mark_job_paid")
        { job_id := some ("j1"), payment_tx_hash := some ("0xabc"),
          payment_network := some ("base"), payment_amount := some 10,
          agent_key := some ("hp_key1") }
        (fun _ => { ok := false, status := 500, body := .null })
      = [markJobPaidReq
          { job_id := some ("j1"), payment_tx_hash := some ("0xabc"),
            payment_network := some ("base"), payment_amount := some 10,
            agent_key := some ("hp_key1") }]
  ∧ (markJobPaidReq
      { job_id := some ("j1"), payment_tx_hash := some ("0xabc"),
        payment_network := some ("base"), payment_amount := some 10,
        agent_key := some ("hp_key1") }).headers
      = [("Content-Type", "application/json")]
  ∧ ("X-Agent-Key", "hp_key1") ∉ (markJobPaidReq
      { job_id := some ("j1"), payment_tx_hash := some ("0xabc"),
        payment_network := some ("base"), payment_amount := some 10,
        agent_key := some ("hp_key1") }).headers
  ∧ requestsOf ("leave_review")
        { job_id := some ("j1"), rating := some 5, agent_key := some ("hp_key1") }
        (fun _ => { ok := false, status := 500, body := .null })
      = [leaveReviewReq { job_id := some ("j1"), rating := some 5, agent_key := some ("hp_key1") }]
  ∧ (leaveReviewReq { job_id := some ("j1"), rating := some 5, agent_key := some ("hp_key1") }).headers
      = [("Content-Type", "application/json")]
  ∧ ("X-Agent-Key", "hp_key1") ∉ (leaveReviewReq
      { job_id := some ("j1"), rating := some 5, agent_key := some ("hp_key1") }).headers := by
  refine ⟨rfl, rfl, by decide, rfl, rfl, by decide⟩

/-- Claim C1 as amended: the mutating operations `create_job_offer`,
`create_listing`, `get_human_profile`, `send_job_message` and the five
stream controls attach the caller-supplied `agent_key` as the
`X-Agent-Key` header of the (first) request they send — so a PENDING
agent invoking them is identified to the collaborator by that credential —
while `mark_job_paid` and `leave_review` accept no credential and send
their request with only the `Content-Type` header. -/
theorem C1_amended_credential_attachment :
    (∀ (name : String) (a : Args) (o : Oracle) (k : String),
       name ∈ ["create_job_offer", "create_listing", "get_human_profile", "send_job_message",
               "start_stream", "record_stream_tick", "pause_stream", "resume_stream",
               "stop_stream"] →
       a.agent_key = some k → k ≠ "" →
       ∃ r rest, requestsOf name a o = r :: rest ∧ ("X-Agent-Key", k) ∈ r.headers)
  ∧ (∀ (a : Args) (o : Oracle) (r : Request), r ∈ requestsOf ("mark_job_paid") a o →
       r.headers = [("Content-Type", "application/json")])
  ∧ (∀ (a : Args) (o : Oracle) (r : Request), r ∈ requestsOf ("leave_review") a o →
       r.headers = [("Content-Type", "application/json")]) := by
  refine ⟨?_, ?_, ?_⟩
  · intro name a o k hmem hk hne
    have ht : truthyS a.agent_key = true := by
      rw [hk]; simp [truthyS, hne]
    have hd : dispS a.agent_key = k := by rw [hk]; rfl
    simp only [List.mem_cons, List.not_mem_nil, or_false] at hmem
    rcases hmem with rfl | rfl | rfl | rfl | rfl | rfl | rfl | rfl | rfl
    · unfold requestsOf
      rw [dsp_create_job_offer]
      unfold createJobOfferH
      cases hb : (o 0).ok
      · simp only [ht, hb]
        exact ⟨_, _, rfl, by simp [createJobOfferReq, hd]⟩
      · simp only [ht, hb]
        exact ⟨_, _, rfl, by simp [createJobOfferReq, hd]⟩
    · unfold requestsOf
      rw [dsp_create_listing]
      unfold createListingH
      simp only [ht]
      exact ⟨_, _, rfl, by simp [hd]⟩
    · unfold requestsOf
      rw [dsp_get_human_profile]
      unfold getHumanProfileH
      simp only [ht]
      exact ⟨_, _, rfl, by simp [hd]⟩
    · unfold requestsOf
      rw [dsp_send_job_message]
      unfold sendJobMessageH
      simp only [ht]
      exact ⟨_, _, rfl, by simp [hd]⟩
    · unfold requestsOf
      rw [dsp_start_stream]
      unfold startStreamH
      simp only [ht]
      exact ⟨_, _, rfl, by simp [hd]⟩
    · unfold requestsOf
      rw [dsp_record_stream_tick]
      unfold recordStreamTickH
      simp only [ht]
      exact ⟨_, _, rfl, by simp [hd]⟩
    · unfold requestsOf
      rw [dsp_pause_stream]
      unfold pauseStreamH
      simp only [ht]
      exact ⟨_, _, rfl, by simp [hd]⟩
    · unfold requestsOf
      rw [dsp_resume_stream]
      unfold resumeStreamH
      simp only [ht]
      exact ⟨_, _, rfl, by simp [hd]⟩
    · unfold requestsOf
      rw [dsp_stop_stream]
      unfold stopStreamH
      simp only [ht]
      exact ⟨_, _, rfl, by simp [hd]⟩
  · intro a o r hr
    have e : requestsOf ("mark_job_paid") a o = [markJobPaidReq a] := rfl
    rw [e] at hr
    have hreq : r = markJobPaidReq a := by simpa using hr
    subst hreq
    rfl
  · intro a o r hr
    have e : requestsOf ("leave_review") a o = [leaveReviewReq a] := rfl
    rw [e] at hr
    have hreq : r = leaveReviewReq a := by simpa using hr
    subst hreq
    rfl

/-- Witness for the amended C1 at a concrete input: `start_stream` with a
supplied key sends a request whose headers carry that key. -/
theorem C1_amended_witness :
    ∃ r rest,
      requestsOf ("start_stream")
          { job_id := some ("j1"), agent_key := some ("hp_key1"),
            sender_address := some ("0xSENDER"), network := some ("base") }
          (fun _ => { ok := false, status := 500, body := .null })
        = r :: rest
      ∧ ("X-Agent-Key", "hp_key1") ∈ r.headers :=
  C1_amended_credential_attachment.1 ("start_stream")
    { job_id := some ("j1"), agent_key := some ("hp_key1"),
      sender_address := some ("0xSENDER"), network := some ("base") }
    (fun _ => { ok := false, status := 500, body := .null })
    ("hp_key1") (by decide) rfl (by decide)

/-! ## Claim C4 -/

/-- Claim C4 counterexample, in two parts.  First, when the collaborator
rejects `create_job_offer` with a 403 `AGENT_PENDING` error carrying its
own reason text (`"agent pending"`), the handler discards that text and
returns a message synthesized by this layer (`pendingGuideJobs`) — not
the collaborator's text verbatim.  Second, `verify_agent_domain`
requires an agent credential but performs no local check: with an empty
`agent_key` it still sends its request to the collaborator. -/
theorem C4_counterexample_pending_synthesis_and_domain_no_check :
    callTool ("create_job_offer")
        { agent_key := some ("hp_key1"), human_id := some ("h9"),
          title := some ("T"), description := some ("D"), price_usdc := some 25,
          agent_id := some ("agent-1") }
        (fun _ => { ok := false, status := 403,
                    body := .obj [("code", .str ("AGENT_PENDING")),
                                  ("error", .str ("agent pending"))] })
      = { text := "Error: " ++ pendingGuideJobs, isError := true }
  ∧ "Error: " ++ pendingGuideJobs ≠ "Error: " ++ "agent pending"
  ∧ requestsOf ("verify_agent_domain")
        { agent_id := some ("ag1"), agent_key := some (""), method := some ("dns") }
        (fun _ => { ok := false, status := 401, body := .null })
      = [verifyAgentDomainReq
          { agent_id := some ("ag1"), agent_key := some (""), method := some ("dns") }] := by
  refine ⟨rfl, by decide, rfl⟩

/-- Claim C4 as amended: (1) for every operation that checks its
credential locally — all credentialed tools except `verify_agent_domain` —
a missing or empty `agent_key` yields a descriptive error with no
request sent; (2) `verify_agent_domain` sends its request regardless of
the credential; (3) `mark_job_paid` surfaces the collaborator's `reason`
text verbatim; (4) `create_job_offer` surfaces the collaborator's
`error` text verbatim when the failure is not a 403 `AGENT_PENDING`; but
(5) a 403 `AGENT_PENDING` failure of `create_job_offer` is replaced by
this layer's synthesized activation guide. -/
theorem C4_amended_local_checks_and_passthrough :
    (∀ (name : String) (a : Args) (o : Oracle),
       name ∈ ["create_job_offer", "get_human_profile", "request_activation_code",
               "verify_social_activation", "get_activation_status", "get_payment_activation",
               "verify_payment_activation", "start_stream", "record_stream_tick",
               "pause_stream", "resume_stream", "stop_stream", "send_job_message",
               "get_job_messages", "create_listing", "get_listing_applications",
               "make_listing_offer", "cancel_listing", "claim_free_pro_upgrade"] →
       (a.agent_key = none ∨ a.agent_key = some ("")) →
       requestsOf name a o = [] ∧ (callTool name a o).isError = true)
  ∧ (∀ (a : Args) (o : Oracle),
       requestsOf ("verify_agent_domain") a o = [verifyAgentDomainReq a])
  ∧ (∀ (a : Args) (o : Oracle) (r : String),
       (o 0).ok = false → (o 0).body.get ("reason") = .str r → r ≠ "" →
       callTool ("mark_job_paid") a o = { text := "Error: " ++ r, isError := true })
  ∧ (∀ (a : Args) (o : Oracle) (k e : String),
       a.agent_key = some k → k ≠ "" → (o 0).ok = false →
       (o 0).body.get ("code") = .null → (o 0).body.get ("error") = .str e → e ≠ "" →
       callTool ("create_job_offer") a o = { text := "Error: " ++ e, isError := true })
  ∧ (∀ (a : Args) (o : Oracle) (k : String),
       a.agent_key = some k → k ≠ "" → (o 0).ok = false → (o 0).status = 403 →
       (o 0).body.get ("code") = .str ("AGENT_PENDING") →
       callTool ("create_job_offer") a o
         = { text := "Error: " ++ pendingGuideJobs, isError := true }) := by
  refine ⟨?_, ?_, ?_, ?_, ?_⟩
  · intro name a o hmem hkey
    have ht : truthyS a.agent_key = false := by
      rcases hkey with h | h <;> rw [h] <;> rfl
    simp only [List.mem_cons, List.not_mem_nil, or_false] at hmem
    rcases hmem with rfl | rfl | rfl | rfl | rfl | rfl | rfl | rfl | rfl | rfl | rfl | rfl | rfl
      | rfl | rfl | rfl | rfl | rfl | rfl
    · exact ⟨by unfold requestsOf; rw [kg_create_job_offer a o ht],
             by unfold callTool; rw [kg_create_job_offer a o ht]⟩
    · exact ⟨by unfold requestsOf; rw [kg_get_human_profile a o ht],
             by unfold callTool; rw [kg_get_human_profile a o ht]⟩
    · exact ⟨by unfold requestsOf; rw [kg_request_activation_code a o ht],
             by unfold callTool; rw [kg_request_activation_code a o ht]⟩
    · exact ⟨by unfold requestsOf; rw [kg_verify_social_activation a o ht],
             by unfold callTool; rw [kg_verify_social_activation a o ht]⟩
    · exact ⟨by unfold requestsOf; rw [kg_get_activation_status a o ht],
             by unfold callTool; rw [kg_get_activation_status a o ht]⟩
    · exact ⟨by unfold requestsOf; rw [kg_get_payment_activation a o ht],
             by unfold callTool; rw [kg_get_payment_activation a o ht]⟩
    · exact ⟨by unfold requestsOf; rw [kg_verify_payment_activation a o ht],
             by unfold callTool; rw [kg_verify_payment_activation a o ht]⟩
    · exact ⟨by unfold requestsOf; rw [kg_start_stream a o ht],
             by unfold callTool; rw [kg_start_stream a o ht]⟩
    · exact ⟨by unfold requestsOf; rw [kg_record_stream_tick a o ht],
             by unfold callTool; rw [kg_record_stream_tick a o ht]⟩
    · exact ⟨by unfold requestsOf; rw [kg_pause_stream a o ht],
             by unfold callTool; rw [kg_pause_stream a o ht]⟩
    · exact ⟨by unfold requestsOf; rw [kg_resume_stream a o ht],
             by unfold callTool; rw [kg_resume_stream a o ht]⟩
    · exact ⟨by unfold requestsOf; rw [kg_stop_stream a o ht],
             by unfold callTool; rw [kg_stop_stream a o ht]⟩
    · exact ⟨by unfold requestsOf; rw [kg_send_job_message a o ht],
             by unfold callTool; rw [kg_send_job_message a o ht]⟩
    · exact ⟨by unfold requestsOf; rw [kg_get_job_messages a o ht],
             by unfold callTool; rw [kg_get_job_messages a o ht]⟩
    · exact ⟨by unfold requestsOf; rw [kg_create_listing a o ht],
             by unfold callTool; rw [kg_create_listing a o ht]⟩
    · exact ⟨by unfold requestsOf; rw [kg_get_listing_applications a o ht],
             by unfold callTool; rw [kg_get_listing_applications a o ht]⟩
    · exact ⟨by unfold requestsOf; rw [kg_make_listing_offer a o ht],
             by unfold callTool; rw [kg_make_listing_offer a o ht]⟩
    · exact ⟨by unfold requestsOf; rw [kg_cancel_listing a o ht],
             by unfold callTool; rw [kg_cancel_listing a o ht]⟩
    · exact ⟨by unfold requestsOf; rw [kg_claim_free_pro_upgrade a o ht],
             by unfold callTool; rw [kg_claim_free_pro_upgrade a o ht]⟩
  · intro a o
    rfl
  · intro a o r h0 hr hne
    unfold callTool
    rw [dsp_mark_job_paid]
    unfold markJobPaidH
    simp only [h0, hr, Bool.not_false]
    simp [jsOr2, Json.truthy, Json.toDisplay, hne]
  · intro a o k e hk hne h0 hcode herr hene
    have ht : truthyS a.agent_key = true := by
      rw [hk]; simp [truthyS, hne]
    unfold callTool
    rw [dsp_create_job_offer]
    unfold createJobOfferH
    simp only [ht, h0, hcode, herr, Bool.not_true, Bool.not_false]
    simp [Json.eqStr, jsOr, Json.truthy, Json.toDisplay, hene]
  · intro a o k hk hne h0 h403 hcode
    have ht : truthyS a.agent_key = true := by
      rw [hk]; simp [truthyS, hne]
    unfold callTool
    rw [dsp_create_job_offer]
    unfold createJobOfferH
    simp only [ht, h0, h403, hcode, Bool.not_true, Bool.not_false]
    simp [Json.eqStr]

/-- Witness for the amended C4 at a concrete input: a missing
`agent_key` on `request_activation_code` is caught locally, producing an
error result with no request sent. -/
theorem C4_amended_witness :
    requestsOf ("request_activation_code") {}
        (fun _ => { ok := true, status := 200, body := .null }) = []
  ∧ (callTool ("request_activation_code") {}
        (fun _ => { ok := true, status := 200, body := .null })).isError = true :=
  C4_amended_local_checks_and_passthrough.1 ("request_activation_code") {}
    (fun _ => { ok := true, status := 200, body := .null })
    (by decide) (Or.inl rfl)

/-! ## Per-handler failure lemmas

Whenever the collaborator's (first) response is not ok, every handler
ends in a thrown error — it never silently succeeds. -/

theorem fx_searchHumans (a : Args) (o : Oracle) (h0 : (o 0).ok = false) :
    ∃ m, (searchHumansH a o).1 = .error m := by
  unfold searchHumansH; simp only [h0]; exact ⟨_, rfl⟩

theorem fx_getHuman (a : Args) (o : Oracle) (h0 : (o 0).ok = false) :
    ∃ m, (getHumanH a o).1 = .error m := by
  unfold getHumanH; simp only [h0]; exact ⟨_, rfl⟩

theorem fx_registerAgent (a : Args) (o : Oracle) (h0 : (o 0).ok = false) :
    ∃ m, (registerAgentH a o).1 = .error m := by
  unfold registerAgentH; simp only [h0]; exact ⟨_, rfl⟩

theorem fx_getAgentProfile (a : Args) (o : Oracle) (h0 : (o 0).ok = false) :
    ∃ m, (getAgentProfileH a o).1 = .error m := by
  unfold getAgentProfileH; simp only [h0]; exact ⟨_, rfl⟩

theorem fx_verifyAgentDomain (a : Args) (o : Oracle) (h0 : (o 0).ok = false) :
    ∃ m, (verifyAgentDomainH a o).1 = .error m := by
  unfold verifyAgentDomainH; simp only [h0]; exact ⟨_, rfl⟩

theorem fx_createJobOffer (a : Args) (o : Oracle) (h0 : (o 0).ok = false) :
    ∃ m, (createJobOfferH a o).1 = .error m := by
  unfold createJobOfferH
  cases ht : truthyS a.agent_key
  · exact ⟨_, rfl⟩
  · simp only [h0]
    cases hc : ((o 0).status == 403 && ((o 0).body.get ("code")).eqStr ("AGENT_PENDING")) <;>
      exact ⟨_, rfl⟩

theorem fx_getJobStatus (a : Args) (o : Oracle) (h0 : (o 0).ok = false) :
    ∃ m, (getJobStatusH a o).1 = .error m := by
  unfold getJobStatusH; simp only [h0]; exact ⟨_, rfl⟩

theorem fx_markJobPaid (a : Args) (o : Oracle) (h0 : (o 0).ok = false) :
    ∃ m, (markJobPaidH a o).1 = .error m := by
  unfold markJobPaidH; simp only [h0]; exact ⟨_, rfl⟩

theorem fx_checkHumanityStatus (a : Args) (o : Oracle) (h0 : (o 0).ok = false) :
    ∃ m, (checkHumanityStatusH a o).1 = .error m := by
  unfold checkHumanityStatusH; simp only [h0]; exact ⟨_, rfl⟩

theorem fx_getHumanProfile (a : Args) (o : Oracle) (h0 : (o 0).ok = false) :
    ∃ m, (getHumanProfileH a o).1 = .error m := by
  unfold getHumanProfileH
  cases ht : truthyS a.agent_key
  · exact ⟨_, rfl⟩
  · simp only [h0]
    cases hc : ((o 0).status == 403 && ((o 0).body.get ("code")).eqStr ("AGENT_PENDING")) <;>
      exact ⟨_, rfl⟩

theorem fx_requestActivationCode (a : Args) (o : Oracle) (h0 : (o 0).ok = false) :
    ∃ m, (requestActivationCodeH a o).1 = .error m := by
  unfold requestActivationCodeH
  cases ht : truthyS a.agent_key
  · exact ⟨_, rfl⟩
  · simp only [h0]; exact ⟨_, rfl⟩

theorem fx_verifySocialActivation (a : Args) (o : Oracle) (h0 : (o 0).ok = false) :
    ∃ m, (verifySocialActivationH a o).1 = .error m := by
  unfold verifySocialActivationH
  cases ht : truthyS a.agent_key
  · exact ⟨_, rfl⟩
  · simp only [h0]; exact ⟨_, rfl⟩

theorem fx_getActivationStatus (a : Args) (o : Oracle) (h0 : (o 0).ok = false) :
    ∃ m, (getActivationStatusH a o).1 = .error m := by
  unfold getActivationStatusH
  cases ht : truthyS a.agent_key
  · exact ⟨_, rfl⟩
  · simp only [h0]; exact ⟨_, rfl⟩

theorem fx_getPaymentActivation (a : Args) (o : Oracle) (h0 : (o 0).ok = false) :
    ∃ m, (getPaymentActivationH a o).1 = .error m := by
  unfold getPaymentActivationH
  cases ht : truthyS a.agent_key
  · exact ⟨_, rfl⟩
  · simp only [h0]; exact ⟨_, rfl⟩

theorem fx_verifyPaymentActivation (a : Args) (o : Oracle) (h0 : (o 0).ok = false) :
    ∃ m, (verifyPaymentActivationH a o).1 = .error m := by
  unfold verifyPaymentActivationH
  cases ht : truthyS a.agent_key
  · exact ⟨_, rfl⟩
  · simp only [h0]; exact ⟨_, rfl⟩

theorem fx_startStream (a : Args) (o : Oracle) (h0 : (o 0).ok = false) :
    ∃ m, (startStreamH a o).1 = .error m := by
  unfold startStreamH
  cases ht : truthyS a.agent_key
  · exact ⟨_, rfl⟩
  · simp only [h0]; exact ⟨_, rfl⟩

theorem fx_recordStreamTick (a : Args) (o : Oracle) (h0 : (o 0).ok = false) :
    ∃ m, (recordStreamTickH a o).1 = .error m := by
  unfold recordStreamTickH
  cases ht : truthyS a.agent_key
  · exact ⟨_, rfl⟩
  · simp only [h0]; exact ⟨_, rfl⟩

theorem fx_pauseStream (a : Args) (o : Oracle) (h0 : (o 0).ok = false) :
    ∃ m, (pauseStreamH a o).1 = .error m := by
  unfold pauseStreamH
  cases ht : truthyS a.agent_key
  · exact ⟨_, rfl⟩
  · simp only [h0]; exact ⟨_, rfl⟩

theorem fx_resumeStream (a : Args) (o : Oracle) (h0 : (o 0).ok = false) :
    ∃ m, (resumeStreamH a o).1 = .error m := by
  unfold resumeStreamH
  cases ht : truthyS a.agent_key
  · exact ⟨_, rfl⟩
  · simp only [h0]; exact ⟨_, rfl⟩

theorem fx_stopStream (a : Args) (o : Oracle) (h0 : (o 0).ok = false) :
    ∃ m, (stopStreamH a o).1 = .error m := by
  unfold stopStreamH
  cases ht : truthyS a.agent_key
  · exact ⟨_, rfl⟩
  · simp only [h0]; exact ⟨_, rfl⟩

theorem fx_sendJobMessage (a : Args) (o : Oracle) (h0 : (o 0).ok = false) :
    ∃ m, (sendJobMessageH a o).1 = .error m := by
  unfold sendJobMessageH
  cases ht : truthyS a.agent_key
  · exact ⟨_, rfl⟩
  · simp only [h0]; exact ⟨_, rfl⟩

theorem fx_getJobMessages (a : Args) (o : Oracle) (h0 : (o 0).ok = false) :
    ∃ m, (getJobMessagesH a o).1 = .error m := by
  unfold getJobMessagesH
  cases ht : truthyS a.agent_key
  · exact ⟨_, rfl⟩
  · simp only [h0]; exact ⟨_, rfl⟩

theorem fx_createListing (a : Args) (o : Oracle) (h0 : (o 0).ok = false) :
    ∃ m, (createListingH a o).1 = .error m := by
  unfold createListingH
  cases ht : truthyS a.agent_key
  · exact ⟨_, rfl⟩
  · simp only [h0]
    cases hc : ((o 0).status == 403 && ((o 0).body.get ("code")).eqStr ("AGENT_PENDING")) <;>
      exact ⟨_, rfl⟩

theorem fx_getListings (a : Args) (o : Oracle) (h0 : (o 0).ok = false) :
    ∃ m, (getListingsH a o).1 = .error m := by
  unfold getListingsH; simp only [h0]; exact ⟨_, rfl⟩

theorem fx_getListing (a : Args) (o : Oracle) (h0 : (o 0).ok = false) :
    ∃ m, (getListingH a o).1 = .error m := by
  unfold getListingH
  simp only [h0]
  cases hc : ((o 0).status == 404) <;> exact ⟨_, rfl⟩

theorem fx_getListingApplications (a : Args) (o : Oracle) (h0 : (o 0).ok = false) :
    ∃ m, (getListingApplicationsH a o).1 = .error m := by
  unfold getListingApplicationsH
  cases ht : truthyS a.agent_key
  · exact ⟨_, rfl⟩
  · simp only [h0]; exact ⟨_, rfl⟩

theorem fx_makeListingOffer (a : Args) (o : Oracle) (h0 : (o 0).ok = false) :
    ∃ m, (makeListingOfferH a o).1 = .error m := by
  unfold makeListingOfferH
  cases ht : truthyS a.agent_key
  · exact ⟨_, rfl⟩
  · simp only [h0]; exact ⟨_, rfl⟩

theorem fx_cancelListing (a : Args) (o : Oracle) (h0 : (o 0).ok = false) :
    ∃ m, (cancelListingH a o).1 = .error m := by
  unfold cancelListingH
  cases ht : truthyS a.agent_key
  · exact ⟨_, rfl⟩
  · simp only [h0]; exact ⟨_, rfl⟩

theorem fx_getPromoStatus (a : Args) (o : Oracle) (h0 : (o 0).ok = false) :
    ∃ m, (getPromoStatusH a o).1 = .error m := by
  unfold getPromoStatusH; simp only [h0]; exact ⟨_, rfl⟩

theorem fx_claimFreeProUpgrade (a : Args) (o : Oracle) (h0 : (o 0).ok = false) :
    ∃ m, (claimFreeProUpgradeH a o).1 = .error m := by
  unfold claimFreeProUpgradeH
  cases ht : truthyS a.agent_key
  · exact ⟨_, rfl⟩
  · simp only [h0]; exact ⟨_, rfl⟩

theorem fx_leaveReview (a : Args) (o : Oracle) (h0 : (o 0).ok = false) :
    ∃ m, (leaveReviewH a o).1 = .error m := by
  unfold leaveReviewH; simp only [h0]; exact ⟨_, rfl⟩

/-! ## Claim C2 -/

/-- An unrecognized tool name falls through the whole dispatch chain to
the `Unknown tool` result. -/
theorem callToolEx_unknown (name : String) (a : Args) (o : Oracle) (h : name ∉ toolNames) :
    callToolEx name a o = (.ok { text := "Unknown tool: " ++ name, isError := true }, []) := by
  simp only [toolNames, List.mem_cons, List.not_mem_nil, or_false, not_or] at h
  obtain ⟨h1, h2, h3, h4, h5, h6, h7, h8, h9, h10, h11, h12, h13, h14, h15, h16, h17, h18, h19, h20, h21, h22, h23, h24, h25, h26, h27, h28, h29, h30, h31⟩ := h
  unfold callToolEx
  rw [if_neg (by simp [h1, h2, h3, h4, h5, h6, h7, h8, h9, h10, h11, h12, h13, h14, h15, h16, h17, h18, h19, h20, h21, h22, h23, h24, h25, h26, h27, h28, h29, h30, h31]),
      if_neg (by simp [h1, h2, h3, h4, h5, h6, h7, h8, h9, h10, h11, h12, h13, h14, h15, h16, h17, h18, h19, h20, h21, h22, h23, h24, h25, h26, h27, h28, h29, h30, h31]),
      if_neg (by simp [h1, h2, h3, h4, h5, h6, h7, h8, h9, h10, h11, h12, h13, h14, h15, h16, h17, h18, h19, h20, h21, h22, h23, h24, h25, h26, h27, h28, h29, h30, h31]),
      if_neg (by simp [h1, h2, h3, h4, h5, h6, h7, h8, h9, h10, h11, h12, h13, h14, h15, h16, h17, h18, h19, h20, h21, h22, h23, h24, h25, h26, h27, h28, h29, h30, h31]),
      if_neg (by simp [h1, h2, h3, h4, h5, h6, h7, h8, h9, h10, h11, h12, h13, h14, h15, h16, h17, h18, h19, h20, h21, h22, h23, h24, h25, h26, h27, h28, h29, h30, h31]),
      if_neg (by simp [h1, h2, h3, h4, h5, h6, h7, h8, h9, h10, h11, h12, h13, h14, h15, h16, h17, h18, h19, h20, h21, h22, h23, h24, h25, h26, h27, h28, h29, h30, h31]),
      if_neg (by simp [h1, h2, h3, h4, h5, h6, h7, h8, h9, h10, h11, h12, h13, h14, h15, h16, h17, h18, h19, h20, h21, h22, h23, h24, h25, h26, h27, h28, h29, h30, h31]),
      if_neg (by simp [h1, h2, h3, h4, h5, h6, h7, h8, h9, h10, h11, h12, h13, h14, h15, h16, h17, h18, h19, h20, h21, h22, h23, h24, h25, h26, h27, h28, h29, h30, h31]),
      if_neg (by simp [h1, h2, h3, h4, h5, h6, h7, h8, h9, h10, h11, h12, h13, h14, h15, h16, h17, h18, h19, h20, h21, h22, h23, h24, h25, h26, h27, h28, h29, h30, h31]),
      if_neg (by simp [h1, h2, h3, h4, h5, h6, h7, h8, h9, h10, h11, h12, h13, h14, h15, h16, h17, h18, h19, h20, h21, h22, h23, h24, h25, h26, h27, h28, h29, h30, h31]),
      if_neg (by simp [h1, h2, h3, h4, h5, h6, h7, h8, h9, h10, h11, h12, h13, h14, h15, h16, h17, h18, h19, h20, h21, h22, h23, h24, h25, h26, h27, h28, h29, h30, h31]),
      if_neg (by simp [h1, h2, h3, h4, h5, h6, h7, h8, h9, h10, h11, h12, h13, h14, h15, h16, h17, h18, h19, h20, h21, h22, h23, h24, h25, h26, h27, h28, h29, h30, h31]),
      if_neg (by simp [h1, h2, h3, h4, h5, h6, h7, h8, h9, h10, h11, h12, h13, h14, h15, h16, h17, h18, h19, h20, h21, h22, h23, h24, h25, h26, h27, h28, h29, h30, h31]),
      if_neg (by simp [h1, h2, h3, h4, h5, h6, h7, h8, h9, h10, h11, h12, h13, h14, h15, h16, h17, h18, h19, h20, h21, h22, h23, h24, h25, h26, h27, h28, h29, h30, h31]),
      if_neg (by simp [h1, h2, h3, h4, h5, h6, h7, h8, h9, h10, h11, h12, h13, h14, h15, h16, h17, h18, h19, h20, h21, h22, h23, h24, h25, h26, h27, h28, h29, h30, h31]),
      if_neg (by simp [h1, h2, h3, h4, h5, h6, h7, h8, h9, h10, h11, h12, h13, h14, h15, h16, h17, h18, h19, h20, h21, h22, h23, h24, h25, h26, h27, h28, h29, h30, h31]),
      if_neg (by simp [h1, h2, h3, h4, h5, h6, h7, h8, h9, h10, h11, h12, h13, h14, h15, h16, h17, h18, h19, h20, h21, h22, h23, h24, h25, h26, h27, h28, h29, h30, h31]),
      if_neg (by simp [h1, h2, h3, h4, h5, h6, h7, h8, h9, h10, h11, h12, h13, h14, h15, h16, h17, h18, h19, h20, h21, h22, h23, h24, h25, h26, h27, h28, h29, h30, h31]),
      if_neg (by simp [h1, h2, h3, h4, h5, h6, h7, h8, h9, h10, h11, h12, h13, h14, h15, h16, h17, h18, h19, h20, h21, h22, h23, h24, h25, h26, h27, h28, h29, h30, h31]),
      if_neg (by simp [h1, h2, h3, h4, h5, h6, h7, h8, h9, h10, h11, h12, h13, h14, h15, h16, h17, h18, h19, h20, h21, h22, h23, h24, h25, h26, h27, h28, h29, h30, h31]),
      if_neg (by simp [h1, h2, h3, h4, h5, h6, h7, h8, h9, h10, h11, h12, h13, h14, h15, h16, h17, h18, h19, h20, h21, h22, h23, h24, h25, h26, h27, h28, h29, h30, h31]),
      if_neg (by simp [h1, h2, h3, h4, h5, h6, h7, h8, h9, h10, h11, h12, h13, h14, h15, h16, h17, h18, h19, h20, h21, h22, h23, h24, h25, h26, h27, h28, h29, h30, h31]),
      if_neg (by simp [h1, h2, h3, h4, h5, h6, h7, h8, h9, h10, h11, h12, h13, h14, h15, h16, h17, h18, h19, h20, h21, h22, h23, h24, h25, h26, h27, h28, h29, h30, h31]),
      if_neg (by simp [h1, h2, h3, h4, h5, h6, h7, h8, h9, h10, h11, h12, h13, h14, h15, h16, h17, h18, h19, h20, h21, h22, h23, h24, h25, h26, h27, h28, h29, h30, h31]),
      if_neg (by simp [h1, h2, h3, h4, h5, h6, h7, h8, h9, h10, h11, h12, h13, h14, h15, h16, h17, h18, h19, h20, h21, h22, h23, h24, h25, h26, h27, h28, h29, h30, h31]),
      if_neg (by simp [h1, h2, h3, h4, h5, h6, h7, h8, h9, h10, h11, h12, h13, h14, h15, h16, h17, h18, h19, h20, h21, h22, h23, h24, h25, h26, h27, h28, h29, h30, h31]),
      if_neg (by simp [h1, h2, h3, h4, h5, h6, h7, h8, h9, h10, h11, h12, h13, h14, h15, h16, h17, h18, h19, h20, h21, h22, h23, h24, h25, h26, h27, h28, h29, h30, h31]),
      if_neg (by simp [h1, h2, h3, h4, h5, h6, h7, h8, h9, h10, h11, h12, h13, h14, h15, h16, h17, h18, h19, h20, h21, h22, h23, h24, h25, h26, h27, h28, h29, h30, h31]),
      if_neg (by simp [h1, h2, h3, h4, h5, h6, h7, h8, h9, h10, h11, h12, h13, h14, h15, h16, h17, h18, h19, h20, h21, h22, h23, h24, h25, h26, h27, h28, h29, h30, h31]),
      if_neg (by simp [h1, h2, h3, h4, h5, h6, h7, h8, h9, h10, h11, h12, h13, h14, h15, h16, h17, h18, h19, h20, h21, h22, h23, h24, h25, h26, h27, h28, h29, h30, h31]),
      if_neg (by simp [h1, h2, h3, h4, h5, h6, h7, h8, h9, h10, h11, h12, h13, h14, h15, h16, h17, h18, h19, h20, h21, h22, h23, h24, h25, h26, h27, h28, h29, h30, h31])]

/-- Claim C2: every failure of a tool invocation is returned as a
terminal result with `isError = true` — an unknown tool name (with no
request sent), and any collaborator failure, whatever the tool and
arguments (the outer catch converts every thrown error, so nothing
escapes the handler).  Moreover the batch runner is the pointwise image
of the single-invocation function: an invocation's result is independent
of whatever failed or succeeded before it, and no invocation changes any
process state consulted by later ones. -/
theorem C2_failures_are_terminal_isError_results :
    (∀ (name : String) (a : Args) (o : Oracle),
       name ∉ toolNames →
       callTool name a o = { text := "Unknown tool: " ++ name, isError := true }
       ∧ requestsOf name a o = [])
  ∧ (∀ (name : String) (a : Args) (o : Oracle),
       (∀ i, (o i).ok = false) → (callTool name a o).isError = true)
  ∧ (∀ (pre post : List Invocation) (c : Invocation),
       runBatch (pre ++ c :: post)
         = runBatch pre ++ callTool c.tool c.args c.oracle :: runBatch post) := by
  refine ⟨?_, ?_, ?_⟩
  · intro name a o h
    exact ⟨by unfold callTool; rw [callToolEx_unknown name a o h],
           by unfold requestsOf; rw [callToolEx_unknown name a o h]⟩
  · intro name a o h
    by_cases e1 : name = "search_humans"
    · subst e1
      obtain ⟨m, hm⟩ := fx_searchHumans a o (h 0)
      unfold callTool
      rw [dsp_search_humans, hm]
    by_cases e2 : name = "get_human"
    · subst e2
      obtain ⟨m, hm⟩ := fx_getHuman a o (h 0)
      unfold callTool
      rw [dsp_get_human, hm]
    by_cases e3 : name = "register_agent"
    · subst e3
      obtain ⟨m, hm⟩ := fx_registerAgent a o (h 0)
      unfold callTool
      rw [dsp_register_agent, hm]
    by_cases e4 : name = "get_agent_profile"
    · subst e4
      obtain ⟨m, hm⟩ := fx_getAgentProfile a o (h 0)
      unfold callTool
      rw [dsp_get_agent_profile, hm]
    by_cases e5 : name = "verify_agent_domain"
    · subst e5
      obtain ⟨m, hm⟩ := fx_verifyAgentDomain a o (h 0)
      unfold callTool
      rw [dsp_verify_agent_domain, hm]
    by_cases e6 : name = "create_job_offer"
    · subst e6
      obtain ⟨m, hm⟩ := fx_createJobOffer a o (h 0)
      unfold callTool
      rw [dsp_create_job_offer, hm]
    by_cases e7 : name = "get_job_status"
    · subst e7
      obtain ⟨m, hm⟩ := fx_getJobStatus a o (h 0)
      unfold callTool
      rw [dsp_get_job_status, hm]
    by_cases e8 : name = "mark_job_paid"
    · subst e8
      obtain ⟨m, hm⟩ := fx_markJobPaid a o (h 0)
      unfold callTool
      rw [dsp_mark_job_paid, hm]
    by_cases e9 : name = "check_humanity_status"
    · subst e9
      obtain ⟨m, hm⟩ := fx_checkHumanityStatus a o (h 0)
      unfold callTool
      rw [dsp_check_humanity_status, hm]
    by_cases e10 : name = "get_human_profile"
    · subst e10
      obtain ⟨m, hm⟩ := fx_getHumanProfile a o (h 0)
      unfold callTool
      rw [dsp_get_human_profile, hm]
    by_cases e11 : name = "request_activation_code"
    · subst e11
      obtain ⟨m, hm⟩ := fx_requestActivationCode a o (h 0)
      unfold callTool
      rw [dsp_request_activation_code, hm]
    by_cases e12 : name = "verify_social_activation"
    · subst e12
      obtain ⟨m, hm⟩ := fx_verifySocialActivation a o (h 0)
      unfold callTool
      rw [dsp_verify_social_activation, hm]
    by_cases e13 : name = "get_activation_status"
    · subst e13
      obtain ⟨m, hm⟩ := fx_getActivationStatus a o (h 0)
      unfold callTool
      rw [dsp_get_activation_status, hm]
    by_cases e14 : name = "get_payment_activation"
    · subst e14
      obtain ⟨m, hm⟩ := fx_getPaymentActivation a o (h 0)
      unfold callTool
      rw [dsp_get_payment_activation, hm]
    by_cases e15 : name = "verify_payment_activation"
    · subst e15
      obtain ⟨m, hm⟩ := fx_verifyPaymentActivation a o (h 0)
      unfold callTool
      rw [dsp_verify_payment_activation, hm]
    by_cases e16 : name = "start_stream"
    · subst e16
      obtain ⟨m, hm⟩ := fx_startStream a o (h 0)
      unfold callTool
      rw [dsp_start_stream, hm]
    by_cases e17 : name = "record_stream_tick"
    · subst e17
      obtain ⟨m, hm⟩ := fx_recordStreamTick a o (h 0)
      unfold callTool
      rw [dsp_record_stream_tick, hm]
    by_cases e18 : name = "pause_stream"
    · subst e18
      obtain ⟨m, hm⟩ := fx_pauseStream a o (h 0)
      unfold callTool
      rw [dsp_pause_stream, hm]
    by_cases e19 : name = "resume_stream"
    · subst e19
      obtain ⟨m, hm⟩ := fx_resumeStream a o (h 0)
      unfold callTool
      rw [dsp_resume_stream, hm]
    by_cases e20 : name = "stop_stream"
    · subst e20
      obtain ⟨m, hm⟩ := fx_stopStream a o (h 0)
      unfold callTool
      rw [dsp_stop_stream, hm]
    by_cases e21 : name = "send_job_message"
    · subst e21
      obtain ⟨m, hm⟩ := fx_sendJobMessage a o (h 0)
      unfold callTool
      rw [dsp_send_job_message, hm]
    by_cases e22 : name = "get_job_messages"
    · subst e22
      obtain ⟨m, hm⟩ := fx_getJobMessages a o (h 0)
      unfold callTool
      rw [dsp_get_job_messages, hm]
    by_cases e23 : name = "create_listing"
    · subst e23
      obtain ⟨m, hm⟩ := fx_createListing a o (h 0)
      unfold callTool
      rw [dsp_create_listing, hm]
    by_cases e24 : name = "get_listings"
    · subst e24
      obtain ⟨m, hm⟩ := fx_getListings a o (h 0)
      unfold callTool
      rw [dsp_get_listings, hm]
    by_cases e25 : name = "get_listing"
    · subst e25
      obtain ⟨m, hm⟩ := fx_getListing a o (h 0)
      unfold callTool
      rw [dsp_get_listing, hm]
    by_cases e26 : name = "get_listing_applications"
    · subst e26
      obtain ⟨m, hm⟩ := fx_getListingApplications a o (h 0)
      unfold callTool
      rw [dsp_get_listing_applications, hm]
    by_cases e27 : name = "make_listing_offer"
    · subst e27
      obtain ⟨m, hm⟩ := fx_makeListingOffer a o (h 0)
      unfold callTool
      rw [dsp_make_listing_offer, hm]
    by_cases e28 : name = "cancel_listing"
    · subst e28
      obtain ⟨m, hm⟩ := fx_cancelListing a o (h 0)
      unfold callTool
      rw [dsp_cancel_listing, hm]
    by_cases e29 : name = "get_promo_status"
    · subst e29
      obtain ⟨m, hm⟩ := fx_getPromoStatus a o (h 0)
      unfold callTool
      rw [dsp_get_promo_status, hm]
    by_cases e30 : name = "claim_free_pro_upgrade"
    · subst e30
      obtain ⟨m, hm⟩ := fx_claimFreeProUpgrade a o (h 0)
      unfold callTool
      rw [dsp_claim_free_pro_upgrade, hm]
    by_cases e31 : name = "leave_review"
    · subst e31
      obtain ⟨m, hm⟩ := fx_leaveReview a o (h 0)
      unfold callTool
      rw [dsp_leave_review, hm]
    have hnot : name ∉ toolNames := by
      simp only [toolNames, List.mem_cons, List.not_mem_nil, or_false, not_or]
      exact ⟨e1, e2, e3, e4, e5, e6, e7, e8, e9, e31, e10, e11, e12, e13, e14, e15, e16, e17, e18, e19, e20, e21, e22, e23, e24, e25, e26, e27, e28, e29, e30⟩
    unfold callTool
    rw [callToolEx_unknown name a o hnot]
  · intro pre post c
    simp [runBatch]

/-- Witness for C2 at concrete inputs: an unknown tool name and an
all-failing collaborator both yield terminal `isError` results. -/
theorem C2_witness :
    (callTool ("nonexistent_tool") {} (fun _ => { ok := false, status := 500, body := .null })
      = { text := "Unknown tool: " ++ "nonexistent_tool", isError := true })
  ∧ (callTool ("mark_job_paid") { job_id := some ("j1") }
      (fun _ => { ok := false, status := 500, body := .null })).isError = true :=
  ⟨(C2_failures_are_terminal_isError_results.1 ("nonexistent_tool") {}
      (fun _ => { ok := false, status := 500, body := .null }) (by decide)).1,
   C2_failures_are_terminal_isError_results.2.1 ("mark_job_paid") { job_id := some ("j1") }
      (fun _ => { ok := false, status := 500, body := .null }) (fun _ => rfl)⟩

/-! ## Per-handler credential-header lemmas

Every `X-Agent-Key` header a handler attaches carries the key read from
this call's own argument bag — no other source exists. -/

theorem hx_searchHumans (a : Args) (o : Oracle) (r : Request) (v : String)
    (hr : r ∈ (searchHumansH a o).2) (hv : ("X-Agent-Key", v) ∈ r.headers) :
    v = dispS a.agent_key := by
  unfold searchHumansH at hr
  simp at hr
  subst hr
  simp [searchHumansReq, getHumanReq, registerAgentReq, markJobPaidReq, leaveReviewReq] at hv

theorem hx_getHuman (a : Args) (o : Oracle) (r : Request) (v : String)
    (hr : r ∈ (getHumanH a o).2) (hv : ("X-Agent-Key", v) ∈ r.headers) :
    v = dispS a.agent_key := by
  unfold getHumanH at hr
  simp at hr
  subst hr
  simp [searchHumansReq, getHumanReq, registerAgentReq, markJobPaidReq, leaveReviewReq] at hv

theorem hx_registerAgent (a : Args) (o : Oracle) (r : Request) (v : String)
    (hr : r ∈ (registerAgentH a o).2) (hv : ("X-Agent-Key", v) ∈ r.headers) :
    v = dispS a.agent_key := by
  unfold registerAgentH at hr
  simp at hr
  subst hr
  simp [searchHumansReq, getHumanReq, registerAgentReq, markJobPaidReq, leaveReviewReq] at hv

theorem hx_getAgentProfile (a : Args) (o : Oracle) (r : Request) (v : String)
    (hr : r ∈ (getAgentProfileH a o).2) (hv : ("X-Agent-Key", v) ∈ r.headers) :
    v = dispS a.agent_key := by
  unfold getAgentProfileH at hr
  simp at hr
  subst hr
  simp [searchHumansReq, getHumanReq, registerAgentReq, markJobPaidReq, leaveReviewReq] at hv

theorem hx_verifyAgentDomain (a : Args) (o : Oracle) (r : Request) (v : String)
    (hr : r ∈ (verifyAgentDomainH a o).2) (hv : ("X-Agent-Key", v) ∈ r.headers) :
    v = dispS a.agent_key := by
  unfold verifyAgentDomainH at hr
  simp at hr
  subst hr
  simp [verifyAgentDomainReq] at hv
  exact hv

theorem hx_createJobOffer (a : Args) (o : Oracle) (r : Request) (v : String)
    (hr : r ∈ (createJobOfferH a o).2) (hv : ("X-Agent-Key", v) ∈ r.headers) :
    v = dispS a.agent_key := by
  unfold createJobOfferH at hr
  cases ht : truthyS a.agent_key <;> rw [ht] at hr
  · simp at hr
  · cases hb : (o 0).ok <;> simp only [hb] at hr <;> simp at hr
    · subst hr
      simp [createJobOfferReq] at hv
      exact hv
    · rcases hr with hre | hre <;> subst hre
      · simp [createJobOfferReq] at hv
        exact hv
      · simp [getHumanReq] at hv

theorem hx_getJobStatus (a : Args) (o : Oracle) (r : Request) (v : String)
    (hr : r ∈ (getJobStatusH a o).2) (hv : ("X-Agent-Key", v) ∈ r.headers) :
    v = dispS a.agent_key := by
  unfold getJobStatusH at hr
  simp at hr
  subst hr
  simp [searchHumansReq, getHumanReq, registerAgentReq, markJobPaidReq, leaveReviewReq] at hv

theorem hx_markJobPaid (a : Args) (o : Oracle) (r : Request) (v : String)
    (hr : r ∈ (markJobPaidH a o).2) (hv : ("X-Agent-Key", v) ∈ r.headers) :
    v = dispS a.agent_key := by
  unfold markJobPaidH at hr
  simp at hr
  subst hr
  simp [searchHumansReq, getHumanReq, registerAgentReq, markJobPaidReq, leaveReviewReq] at hv

theorem hx_checkHumanityStatus (a : Args) (o : Oracle) (r : Request) (v : String)
    (hr : r ∈ (checkHumanityStatusH a o).2) (hv : ("X-Agent-Key", v) ∈ r.headers) :
    v = dispS a.agent_key := by
  unfold checkHumanityStatusH at hr
  simp at hr
  subst hr
  simp [searchHumansReq, getHumanReq, registerAgentReq, markJobPaidReq, leaveReviewReq] at hv

theorem hx_getHumanProfile (a : Args) (o : Oracle) (r : Request) (v : String)
    (hr : r ∈ (getHumanProfileH a o).2) (hv : ("X-Agent-Key", v) ∈ r.headers) :
    v = dispS a.agent_key := by
  unfold getHumanProfileH at hr
  cases ht : truthyS a.agent_key <;> rw [ht] at hr
  · simp at hr
  · simp at hr
    subst hr
    simp at hv
    exact hv

theorem hx_requestActivationCode (a : Args) (o : Oracle) (r : Request) (v : String)
    (hr : r ∈ (requestActivationCodeH a o).2) (hv : ("X-Agent-Key", v) ∈ r.headers) :
    v = dispS a.agent_key := by
  unfold requestActivationCodeH at hr
  cases ht : truthyS a.agent_key <;> rw [ht] at hr
  · simp at hr
  · simp at hr
    subst hr
    simp at hv
    exact hv

theorem hx_verifySocialActivation (a : Args) (o : Oracle) (r : Request) (v : String)
    (hr : r ∈ (verifySocialActivationH a o).2) (hv : ("X-Agent-Key", v) ∈ r.headers) :
    v = dispS a.agent_key := by
  unfold verifySocialActivationH at hr
  cases ht : truthyS a.agent_key <;> rw [ht] at hr
  · simp at hr
  · simp at hr
    subst hr
    simp at hv
    exact hv

theorem hx_getActivationStatus (a : Args) (o : Oracle) (r : Request) (v : String)
    (hr : r ∈ (getActivationStatusH a o).2) (hv : ("X-Agent-Key", v) ∈ r.headers) :
    v = dispS a.agent_key := by
  unfold getActivationStatusH at hr
  cases ht : truthyS a.agent_key <;> rw [ht] at hr
  · simp at hr
  · simp at hr
    subst hr
    simp at hv
    exact hv

theorem hx_getPaymentActivation (a : Args) (o : Oracle) (r : Request) (v : String)
    (hr : r ∈ (getPaymentActivationH a o).2) (hv : ("X-Agent-Key", v) ∈ r.headers) :
    v = dispS a.agent_key := by
  unfold getPaymentActivationH at hr
  cases ht : truthyS a.agent_key <;> rw [ht] at hr
  · simp at hr
  · simp at hr
    subst hr
    simp at hv
    exact hv

theorem hx_verifyPaymentActivation (a : Args) (o : Oracle) (r : Request) (v : String)
    (hr : r ∈ (verifyPaymentActivationH a o).2) (hv : ("X-Agent-Key", v) ∈ r.headers) :
    v = dispS a.agent_key := by
  unfold verifyPaymentActivationH at hr
  cases ht : truthyS a.agent_key <;> rw [ht] at hr
  · simp at hr
  · simp at hr
    subst hr
    simp at hv
    exact hv

theorem hx_startStream (a : Args) (o : Oracle) (r : Request) (v : String)
    (hr : r ∈ (startStreamH a o).2) (hv : ("X-Agent-Key", v) ∈ r.headers) :
    v = dispS a.agent_key := by
  unfold startStreamH at hr
  cases ht : truthyS a.agent_key <;> rw [ht] at hr
  · simp at hr
  · simp at hr
    subst hr
    simp at hv
    exact hv

theorem hx_recordStreamTick (a : Args) (o : Oracle) (r : Request) (v : String)
    (hr : r ∈ (recordStreamTickH a o).2) (hv : ("X-Agent-Key", v) ∈ r.headers) :
    v = dispS a.agent_key := by
  unfold recordStreamTickH at hr
  cases ht : truthyS a.agent_key <;> rw [ht] at hr
  · simp at hr
  · simp at hr
    subst hr
    simp at hv
    exact hv

theorem hx_pauseStream (a : Args) (o : Oracle) (r : Request) (v : String)
    (hr : r ∈ (pauseStreamH a o).2) (hv : ("X-Agent-Key", v) ∈ r.headers) :
    v = dispS a.agent_key := by
  unfold pauseStreamH at hr
  cases ht : truthyS a.agent_key <;> rw [ht] at hr
  · simp at hr
  · simp at hr
    subst hr
    simp at hv
    exact hv

theorem hx_resumeStream (a : Args) (o : Oracle) (r : Request) (v : String)
    (hr : r ∈ (resumeStreamH a o).2) (hv : ("X-Agent-Key", v) ∈ r.headers) :
    v = dispS a.agent_key := by
  unfold resumeStreamH at hr
  cases ht : truthyS a.agent_key <;> rw [ht] at hr
  · simp at hr
  · simp at hr
    subst hr
    simp at hv
    exact hv

theorem hx_stopStream (a : Args) (o : Oracle) (r : Request) (v : String)
    (hr : r ∈ (stopStreamH a o).2) (hv : ("X-Agent-Key", v) ∈ r.headers) :
    v = dispS a.agent_key := by
  unfold stopStreamH at hr
  cases ht : truthyS a.agent_key <;> rw [ht] at hr
  · simp at hr
  · simp at hr
    subst hr
    simp at hv
    exact hv

theorem hx_sendJobMessage (a : Args) (o : Oracle) (r : Request) (v : String)
    (hr : r ∈ (sendJobMessageH a o).2) (hv : ("X-Agent-Key", v) ∈ r.headers) :
    v = dispS a.agent_key := by
  unfold sendJobMessageH at hr
  cases ht : truthyS a.agent_key <;> rw [ht] at hr
  · simp at hr
  · simp at hr
    subst hr
    simp at hv
    exact hv

theorem hx_getJobMessages (a : Args) (o : Oracle) (r : Request) (v : String)
    (hr : r ∈ (getJobMessagesH a o).2) (hv : ("X-Agent-Key", v) ∈ r.headers) :
    v = dispS a.agent_key := by
  unfold getJobMessagesH at hr
  cases ht : truthyS a.agent_key <;> rw [ht] at hr
  · simp at hr
  · simp at hr
    subst hr
    simp at hv
    exact hv

theorem hx_createListing (a : Args) (o : Oracle) (r : Request) (v : String)
    (hr : r ∈ (createListingH a o).2) (hv : ("X-Agent-Key", v) ∈ r.headers) :
    v = dispS a.agent_key := by
  unfold createListingH at hr
  cases ht : truthyS a.agent_key <;> rw [ht] at hr
  · simp at hr
  · simp at hr
    subst hr
    simp at hv
    exact hv

theorem hx_getListings (a : Args) (o : Oracle) (r : Request) (v : String)
    (hr : r ∈ (getListingsH a o).2) (hv : ("X-Agent-Key", v) ∈ r.headers) :
    v = dispS a.agent_key := by
  unfold getListingsH at hr
  simp at hr
  subst hr
  simp [searchHumansReq, getHumanReq, registerAgentReq, markJobPaidReq, leaveReviewReq] at hv

theorem hx_getListing (a : Args) (o : Oracle) (r : Request) (v : String)
    (hr : r ∈ (getListingH a o).2) (hv : ("X-Agent-Key", v) ∈ r.headers) :
    v = dispS a.agent_key := by
  unfold getListingH at hr
  simp at hr
  subst hr
  simp [searchHumansReq, getHumanReq, registerAgentReq, markJobPaidReq, leaveReviewReq] at hv

theorem hx_getListingApplications (a : Args) (o : Oracle) (r : Request) (v : String)
    (hr : r ∈ (getListingApplicationsH a o).2) (hv : ("X-Agent-Key", v) ∈ r.headers) :
    v = dispS a.agent_key := by
  unfold getListingApplicationsH at hr
  cases ht : truthyS a.agent_key <;> rw [ht] at hr
  · simp at hr
  · simp at hr
    subst hr
    simp at hv
    exact hv

theorem hx_makeListingOffer (a : Args) (o : Oracle) (r : Request) (v : String)
    (hr : r ∈ (makeListingOfferH a o).2) (hv : ("X-Agent-Key", v) ∈ r.headers) :
    v = dispS a.agent_key := by
  unfold makeListingOfferH at hr
  cases ht : truthyS a.agent_key <;> rw [ht] at hr
  · simp at hr
  · simp at hr
    subst hr
    simp at hv
    exact hv

theorem hx_cancelListing (a : Args) (o : Oracle) (r : Request) (v : String)
    (hr : r ∈ (cancelListingH a o).2) (hv : ("X-Agent-Key", v) ∈ r.headers) :
    v = dispS a.agent_key := by
  unfold cancelListingH at hr
  cases ht : truthyS a.agent_key <;> rw [ht] at hr
  · simp at hr
  · simp at hr
    subst hr
    simp at hv
    exact hv

theorem hx_getPromoStatus (a : Args) (o : Oracle) (r : Request) (v : String)
    (hr : r ∈ (getPromoStatusH a o).2) (hv : ("X-Agent-Key", v) ∈ r.headers) :
    v = dispS a.agent_key := by
  unfold getPromoStatusH at hr
  simp at hr
  subst hr
  simp [searchHumansReq, getHumanReq, registerAgentReq, markJobPaidReq, leaveReviewReq] at hv

theorem hx_claimFreeProUpgrade (a : Args) (o : Oracle) (r : Request) (v : String)
    (hr : r ∈ (claimFreeProUpgradeH a o).2) (hv : ("X-Agent-Key", v) ∈ r.headers) :
    v = dispS a.agent_key := by
  unfold claimFreeProUpgradeH at hr
  cases ht : truthyS a.agent_key <;> rw [ht] at hr
  · simp at hr
  · simp at hr
    subst hr
    simp at hv
    exact hv

theorem hx_leaveReview (a : Args) (o : Oracle) (r : Request) (v : String)
    (hr : r ∈ (leaveReviewH a o).2) (hv : ("X-Agent-Key", v) ∈ r.headers) :
    v = dispS a.agent_key := by
  unfold leaveReviewH at hr
  simp at hr
  subst hr
  simp [searchHumansReq, getHumanReq, registerAgentReq, markJobPaidReq, leaveReviewReq] at hv

/-! ## Claim C8 -/

/-- Claim C8: the tool layer is stateless and deterministic.  (1) A
batch of invocations is the pointwise image of the single-invocation
function — an invocation's result is the same wherever it occurs in a
sequence, so no invocation affects another.  (2) Two invocations with
the same tool, arguments and collaborator responses produce the same
result and send the same requests.  (3) Every `X-Agent-Key` header on
every request of every tool equals the key read from that call's own
argument bag — no handler caches a credential anywhere else. -/
theorem C8_stateless_and_credential_read_per_call :
    (∀ (c : Invocation) (pre post : List Invocation),
       runBatch (pre ++ c :: post)
         = runBatch pre ++ callTool c.tool c.args c.oracle :: runBatch post)
  ∧ (∀ (c d : Invocation), c.tool = d.tool → c.args = d.args → c.oracle = d.oracle →
       callTool c.tool c.args c.oracle = callTool d.tool d.args d.oracle
       ∧ requestsOf c.tool c.args c.oracle = requestsOf d.tool d.args d.oracle)
  ∧ (∀ (name : String) (a : Args) (o : Oracle) (r : Request) (v : String),
       r ∈ requestsOf name a o → ("X-Agent-Key", v) ∈ r.headers →
       v = dispS a.agent_key) := by
  refine ⟨?_, ?_, ?_⟩
  · intro c pre post
    simp [runBatch]
  · intro c d h1 h2 h3
    rw [h1, h2, h3]
    exact ⟨rfl, rfl⟩
  · intro name a o r v hr hv
    by_cases e1 : name = "search_humans"
    · subst e1
      unfold requestsOf at hr
      rw [dsp_search_humans] at hr
      exact hx_searchHumans a o r v hr hv
    by_cases e2 : name = "get_human"
    · subst e2
      unfold requestsOf at hr
      rw [dsp_get_human] at hr
      exact hx_getHuman a o r v hr hv
    by_cases e3 : name = "register_agent"
    · subst e3
      unfold requestsOf at hr
      rw [dsp_register_agent] at hr
      exact hx_registerAgent a o r v hr hv
    by_cases e4 : name = "get_agent_profile"
    · subst e4
      unfold requestsOf at hr
      rw [dsp_get_agent_profile] at hr
      exact hx_getAgentProfile a o r v hr hv
    by_cases e5 : name = "verify_agent_domain"
    · subst e5
      unfold requestsOf at hr
      rw [dsp_verify_agent_domain] at hr
      exact hx_verifyAgentDomain a o r v hr hv
    by_cases e6 : name = "create_job_offer"
    · subst e6
      unfold requestsOf at hr
      rw [dsp_create_job_offer] at hr
      exact hx_createJobOffer a o r v hr hv
    by_cases e7 : name = "get_job_status"
    · subst e7
      unfold requestsOf at hr
      rw [dsp_get_job_status] at hr
      exact hx_getJobStatus a o r v hr hv
    by_cases e8 : name = "mark_job_paid"
    · subst e8
      unfold requestsOf at hr
      rw [dsp_mark_job_paid] at hr
      exact hx_markJobPaid a o r v hr hv
    by_cases e9 : name = "check_humanity_status"
    · subst e9
      unfold requestsOf at hr
      rw [dsp_check_humanity_status] at hr
      exact hx_checkHumanityStatus a o r v hr hv
    by_cases e10 : name = "get_human_profile"
    · subst e10
      unfold requestsOf at hr
      rw [dsp_get_human_profile] at hr
      exact hx_getHumanProfile a o r v hr hv
    by_cases e11 : name = "request_activation_code"
    · subst e11
      unfold requestsOf at hr
      rw [dsp_request_activation_code] at hr
      exact hx_requestActivationCode a o r v hr hv
    by_cases e12 : name = "verify_social_activation"
    · subst e12
      unfold requestsOf at hr
      rw [dsp_verify_social_activation] at hr
      exact hx_verifySocialActivation a o r v hr hv
    by_cases e13 : name = "get_activation_status"
    · subst e13
      unfold requestsOf at hr
      rw [dsp_get_activation_status] at hr
      exact hx_getActivationStatus a o r v hr hv
    by_cases e14 : name = "get_payment_activation"
    · subst e14
      unfold requestsOf at hr
      rw [dsp_get_payment_activation] at hr
      exact hx_getPaymentActivation a o r v hr hv
    by_cases e15 : name = "verify_payment_activation"
    · subst e15
      unfold requestsOf at hr
      rw [dsp_verify_payment_activation] at hr
      exact hx_verifyPaymentActivation a o r v hr hv
    by_cases e16 : name = "start_stream"
    · subst e16
      unfold requestsOf at hr
      rw [dsp_start_stream] at hr
      exact hx_startStream a o r v hr hv
    by_cases e17 : name = "record_stream_tick"
    · subst e17
      unfold requestsOf at hr
      rw [dsp_record_stream_tick] at hr
      exact hx_recordStreamTick a o r v hr hv
    by_cases e18 : name = "pause_stream"
    · subst e18
      unfold requestsOf at hr
      rw [dsp_pause_stream] at hr
      exact hx_pauseStream a o r v hr hv
    by_cases e19 : name = "resume_stream"
    · subst e19
      unfold requestsOf at hr
      rw [dsp_resume_stream] at hr
      exact hx_resumeStream a o r v hr hv
    by_cases e20 : name = "stop_stream"
    · subst e20
      unfold requestsOf at hr
      rw [dsp_stop_stream] at hr
      exact hx_stopStream a o r v hr hv
    by_cases e21 : name = "send_job_message"
    · subst e21
      unfold requestsOf at hr
      rw [dsp_send_job_message] at hr
      exact hx_sendJobMessage a o r v hr hv
    by_cases e22 : name = "get_job_messages"
    · subst e22
      unfold requestsOf at hr
      rw [dsp_get_job_messages] at hr
      exact hx_getJobMessages a o r v hr hv
    by_cases e23 : name = "create_listing"
    · subst e23
      unfold requestsOf at hr
      rw [dsp_create_listing] at hr
      exact hx_createListing a o r v hr hv
    by_cases e24 : name = "get_listings"
    · subst e24
      unfold requestsOf at hr
      rw [dsp_get_listings] at hr
      exact hx_getListings a o r v hr hv
    by_cases e25 : name = "get_listing"
    · subst e25
      unfold requestsOf at hr
      rw [dsp_get_listing] at hr
      exact hx_getListing a o r v hr hv
    by_cases e26 : name = "get_listing_applications"
    · subst e26
      unfold requestsOf at hr
      rw [dsp_get_listing_applications] at hr
      exact hx_getListingApplications a o r v hr hv
    by_cases e27 : name = "make_listing_offer"
    · subst e27
      unfold requestsOf at hr
      rw [dsp_make_listing_offer] at hr
      exact hx_makeListingOffer a o r v hr hv
    by_cases e28 : name = "cancel_listing"
    · subst e28
      unfold requestsOf at hr
      rw [dsp_cancel_listing] at hr
      exact hx_cancelListing a o r v hr hv
    by_cases e29 : name = "get_promo_status"
    · subst e29
      unfold requestsOf at hr
      rw [dsp_get_promo_status] at hr
      exact hx_getPromoStatus a o r v hr hv
    by_cases e30 : name = "claim_free_pro_upgrade"
    · subst e30
      unfold requestsOf at hr
      rw [dsp_claim_free_pro_upgrade] at hr
      exact hx_claimFreeProUpgrade a o r v hr hv
    by_cases e31 : name = "leave_review"
    · subst e31
      unfold requestsOf at hr
      rw [dsp_leave_review] at hr
      exact hx_leaveReview a o r v hr hv
    have hnot : name ∉ toolNames := by
      simp only [toolNames, List.mem_cons, List.not_mem_nil, or_false, not_or]
      exact ⟨e1, e2, e3, e4, e5, e6, e7, e8, e9, e31, e10, e11, e12, e13, e14, e15, e16, e17, e18, e19, e20, e21, e22, e23, e24, e25, e26, e27, e28, e29, e30⟩
    unfold requestsOf at hr
    rw [callToolEx_unknown name a o hnot] at hr
    simp at hr

/-- Witness for C8 at a concrete input: the key attached to the
`start_stream` request is exactly the one supplied in that call's
arguments. -/
theorem C8_witness :
    "hp_key1" = dispS (some ("hp_key1")) := by
  refine C8_stateless_and_credential_read_per_call.2.2 ("start_stream")
    { job_id := some ("j1"), agent_key := some ("hp_key1"),
      sender_address := some ("0xS"), network := some ("base") }
    (fun _ => { ok := false, status := 500, body := .null })
    { method := "PATCH", url := "http://localhost:3001/api/jobs/j1/start-stream",
      headers := [("Content-Type", "application/json"), ("X-Agent-Key", "hp_key1")],
      body := some (.obj [("senderAddress", .str ("0xS")), ("network", .str ("base")),
                          ("token", .str ("USDC"))]) }
    ("hp_key1") ?_ ?_
  · exact List.mem_singleton.mpr rfl
  · simp

/-! ## Claim C6: stream bookkeeping invariants -/

theorem reachedMaxAfter_none (s : MicroStream) (h : s.maxTicks = none) :
    reachedMaxAfter s = false := by
  unfold reachedMaxAfter
  rw [h]

theorem reachedMaxAfter_hit (s : MicroStream) (m : Nat) (h : s.maxTicks = some m)
    (hge : s.tickCount + 1 ≥ m) : reachedMaxAfter s = true := by
  unfold reachedMaxAfter
  rw [h]
  exact decide_eq_true hge

theorem reachedMaxAfter_low (s : MicroStream) (m : Nat) (h : s.maxTicks = some m)
    (hlt : s.tickCount + 1 < m) : reachedMaxAfter s = false := by
  unfold reachedMaxAfter
  rw [h]
  exact decide_eq_false (Nat.not_le.mpr hlt)

theorem streamRun_start_ok (s : MicroStream) (h : s.sub = .awaitingStart) :
    streamRun s .start = { s with sub := .active, pendingTick := true } := by
  simp only [streamRun, streamStep]
  rw [if_pos h]

theorem streamRun_start_fail (s : MicroStream) (h : ¬ s.sub = .awaitingStart) :
    streamRun s .start = s := by
  simp only [streamRun, streamStep]
  rw [if_neg h]

theorem streamRun_tick_fail1 (s : MicroStream) (a : Nat) (h : s.sub ≠ .active) :
    streamRun s (.recordTick a) = s := by
  simp only [streamRun, streamStep]
  rw [if_pos h]

theorem streamRun_tick_fail2 (s : MicroStream) (a : Nat) (h1 : ¬ s.sub ≠ .active)
    (h2 : (!s.pendingTick) = true) : streamRun s (.recordTick a) = s := by
  simp only [streamRun, streamStep]
  rw [if_neg h1, if_pos h2]

theorem streamRun_tick_fail3 (s : MicroStream) (a : Nat) (h1 : ¬ s.sub ≠ .active)
    (h2 : ¬ (!s.pendingTick) = true) (h3 : a ≠ s.rateUsdc) :
    streamRun s (.recordTick a) = s := by
  simp only [streamRun, streamStep]
  rw [if_neg h1, if_neg h2, if_pos h3]

theorem streamRun_tick_ok_open (s : MicroStream) (a : Nat) (h1 : ¬ s.sub ≠ .active)
    (h2 : ¬ (!s.pendingTick) = true) (h3 : ¬ a ≠ s.rateUsdc)
    (hmx : reachedMaxAfter s = false) :
    streamRun s (.recordTick a) =
      { s with tickCount := s.tickCount + 1, totalPaid := s.totalPaid + s.rateUsdc,
               verifiedTicks := s.verifiedTicks ++ [a],
               pendingTick := true, sub := .active } := by
  simp only [streamRun, streamStep]
  rw [if_neg h1, if_neg h2, if_neg h3, hmx]
  rfl

theorem streamRun_tick_ok_capped (s : MicroStream) (a : Nat) (h1 : ¬ s.sub ≠ .active)
    (h2 : ¬ (!s.pendingTick) = true) (h3 : ¬ a ≠ s.rateUsdc)
    (hmx : reachedMaxAfter s = true) :
    streamRun s (.recordTick a) =
      { s with tickCount := s.tickCount + 1, totalPaid := s.totalPaid + s.rateUsdc,
               verifiedTicks := s.verifiedTicks ++ [a],
               pendingTick := false, sub := .stopped } := by
  simp only [streamRun, streamStep]
  rw [if_neg h1, if_neg h2, if_neg h3, hmx]
  rfl

theorem streamRun_pause_ok (s : MicroStream) (h : s.sub = .active) :
    streamRun s .pause = { s with sub := .paused, pendingTick := false } := by
  simp only [streamRun, streamStep]
  rw [if_pos h]

theorem streamRun_pause_fail (s : MicroStream) (h : ¬ s.sub = .active) :
    streamRun s .pause = s := by
  simp only [streamRun, streamStep]
  rw [if_neg h]

theorem streamRun_resume_ok (s : MicroStream) (h : s.sub = .paused) :
    streamRun s .resume = { s with sub := .active, pendingTick := true } := by
  simp only [streamRun, streamStep]
  rw [if_pos h]

theorem streamRun_resume_fail (s : MicroStream) (h : ¬ s.sub = .paused) :
    streamRun s .resume = s := by
  simp only [streamRun, streamStep]
  rw [if_neg h]

theorem streamRun_stop_already (s : MicroStream) (h : s.sub = .stopped) :
    streamRun s .stop = s := by
  simp only [streamRun, streamStep]
  rw [if_pos h]

theorem streamRun_stop_ok (s : MicroStream) (h1 : ¬ s.sub = .stopped)
    (h2 : s.sub = .active ∨ s.sub = .paused) :
    streamRun s .stop = { s with sub := .stopped, pendingTick := false } := by
  simp only [streamRun, streamStep]
  rw [if_neg h1, if_pos h2]

theorem streamRun_stop_fail (s : MicroStream) (h1 : ¬ s.sub = .stopped)
    (h2 : ¬ (s.sub = .active ∨ s.sub = .paused)) :
    streamRun s .stop = s := by
  simp only [streamRun, streamStep]
  rw [if_neg h1, if_neg h2]

/-- The freshly created stream satisfies the bookkeeping invariant
whenever its cap, if set, is at least one tick. -/
theorem streamInv_mkStream (rate : Nat) (mt : Option Nat)
    (hwf : ∀ m, mt = some m → 1 ≤ m) : streamInv (mkStream rate mt) := by
  refine ⟨rfl, by simp [mkStream], by simp [mkStream], rfl, ?_, fun _ => rfl, ?_, hwf⟩
  · intro m _
    exact Nat.zero_le m
  · intro hsub
    rcases hsub with h | h <;> simp [mkStream] at h

/-- One observed step preserves the bookkeeping invariant. -/
theorem streamInv_run (s : MicroStream) (op : StreamOp) (h : streamInv s) :
    streamInv (streamRun s op) := by
  obtain ⟨h1, h2, h3, h4, h5, h6, h7, h8⟩ := h
  cases op with
  | start =>
      by_cases hc : s.sub = .awaitingStart
      · rw [streamRun_start_ok s hc]
        refine ⟨h1, h2, h3, h4, h5, by intro e; simp at e, ?_, h8⟩
        intro _ m hm
        have e0 := h6 hc
        have e1 := h8 m hm
        show s.tickCount < m
        omega
      · rw [streamRun_start_fail s hc]
        exact ⟨h1, h2, h3, h4, h5, h6, h7, h8⟩
  | recordTick amount =>
      by_cases hne : s.sub ≠ .active
      · rw [streamRun_tick_fail1 s amount hne]
        exact ⟨h1, h2, h3, h4, h5, h6, h7, h8⟩
      · by_cases hp : (!s.pendingTick) = true
        · rw [streamRun_tick_fail2 s amount hne hp]
          exact ⟨h1, h2, h3, h4, h5, h6, h7, h8⟩
        · by_cases hamt : amount ≠ s.rateUsdc
          · rw [streamRun_tick_fail3 s amount hne hp hamt]
            exact ⟨h1, h2, h3, h4, h5, h6, h7, h8⟩
          · have hact : s.sub = .active := not_not.mp hne
            have hamt2 : amount = s.rateUsdc := not_not.mp hamt
            cases hmx : s.maxTicks with
            | none =>
                rw [streamRun_tick_ok_open s amount hne hp hamt
                      (reachedMaxAfter_none s hmx)]
                refine ⟨?_, ?_, ?_, ?_, ?_, by intro e; simp at e, ?_, ?_⟩
                · show s.totalPaid + s.rateUsdc = (s.verifiedTicks ++ [amount]).sum
                  rw [h1, hamt2]
                  simp
                · show s.totalPaid + s.rateUsdc = (s.tickCount + 1) * s.rateUsdc
                  rw [h2, Nat.succ_mul]
                · intro t ht
                  have ht2 : t ∈ s.verifiedTicks ++ [amount] := ht
                  rw [List.mem_append, List.mem_singleton] at ht2
                  show t = s.rateUsdc
                  rcases ht2 with ht2 | ht2
                  · exact h3 t ht2
                  · rw [ht2]
                    exact hamt2
                · show (s.verifiedTicks ++ [amount]).length = s.tickCount + 1
                  simp [h4]
                · intro m hm
                  have e : s.maxTicks = some m := hm
                  rw [hmx] at e
                  exact Option.noConfusion e
                · intro _ m hm
                  have e : s.maxTicks = some m := hm
                  rw [hmx] at e
                  exact Option.noConfusion e
                · intro m hm
                  exact h8 m hm
            | some m =>
                have hmlt := h7 (Or.inl hact) m hmx
                rcases Nat.lt_or_ge (s.tickCount + 1) m with hlow | hhit
                · rw [streamRun_tick_ok_open s amount hne hp hamt
                        (reachedMaxAfter_low s m hmx hlow)]
                  refine ⟨?_, ?_, ?_, ?_, ?_, by intro e; simp at e, ?_, ?_⟩
                  · show s.totalPaid + s.rateUsdc = (s.verifiedTicks ++ [amount]).sum
                    rw [h1, hamt2]
                    simp
                  · show s.totalPaid + s.rateUsdc = (s.tickCount + 1) * s.rateUsdc
                    rw [h2, Nat.succ_mul]
                  · intro t ht
                    have ht2 : t ∈ s.verifiedTicks ++ [amount] := ht
                    rw [List.mem_append, List.mem_singleton] at ht2
                    show t = s.rateUsdc
                    rcases ht2 with ht2 | ht2
                    · exact h3 t ht2
                    · rw [ht2]
                      exact hamt2
                  · show (s.verifiedTicks ++ [amount]).length = s.tickCount + 1
                    simp [h4]
                  · intro m1 hm1
                    have e : s.maxTicks = some m1 := hm1
                    rw [hmx] at e
                    injection e with e
                    show s.tickCount + 1 ≤ m1
                    omega
                  · intro _ m1 hm1
                    have e : s.maxTicks = some m1 := hm1
                    rw [hmx] at e
                    injection e with e
                    show s.tickCount + 1 < m1
                    omega
                  · intro m1 hm1
                    exact h8 m1 hm1
                · rw [streamRun_tick_ok_capped s amount hne hp hamt
                        (reachedMaxAfter_hit s m hmx hhit)]
                  refine ⟨?_, ?_, ?_, ?_, ?_, by intro e; simp at e,
                          by intro e; simp at e, ?_⟩
                  · show s.totalPaid + s.rateUsdc = (s.verifiedTicks ++ [amount]).sum
                    rw [h1, hamt2]
                    simp
                  · show s.totalPaid + s.rateUsdc = (s.tickCount + 1) * s.rateUsdc
                    rw [h2, Nat.succ_mul]
                  · intro t ht
                    have ht2 : t ∈ s.verifiedTicks ++ [amount] := ht
                    rw [List.mem_append, List.mem_singleton] at ht2
                    show t = s.rateUsdc
                    rcases ht2 with ht2 | ht2
                    · exact h3 t ht2
                    · rw [ht2]
                      exact hamt2
                  · show (s.verifiedTicks ++ [amount]).length = s.tickCount + 1
                    simp [h4]
                  · intro m1 hm1
                    have e : s.maxTicks = some m1 := hm1
                    rw [hmx] at e
                    injection e with e
                    show s.tickCount + 1 ≤ m1
                    omega
                  · intro m1 hm1
                    exact h8 m1 hm1
  | pause =>
      by_cases hc : s.sub = .active
      · rw [streamRun_pause_ok s hc]
        exact ⟨h1, h2, h3, h4, h5, by intro e; simp at e,
               fun _ => h7 (Or.inl hc), h8⟩
      · rw [streamRun_pause_fail s hc]
        exact ⟨h1, h2, h3, h4, h5, h6, h7, h8⟩
  | resume =>
      by_cases hc : s.sub = .paused
      · rw [streamRun_resume_ok s hc]
        exact ⟨h1, h2, h3, h4, h5, by intro e; simp at e,
               fun _ => h7 (Or.inr hc), h8⟩
      · rw [streamRun_resume_fail s hc]
        exact ⟨h1, h2, h3, h4, h5, h6, h7, h8⟩
  | stop =>
      by_cases hc : s.sub = .stopped
      · rw [streamRun_stop_already s hc]
        exact ⟨h1, h2, h3, h4, h5, h6, h7, h8⟩
      · by_cases hc2 : s.sub = .active ∨ s.sub = .paused
        · rw [streamRun_stop_ok s hc hc2]
          refine ⟨h1, h2, h3, h4, h5, by intro e; simp at e, ?_, h8⟩
          intro e
          rcases e with e | e <;> simp at e
        · rw [streamRun_stop_fail s hc hc2]
          exact ⟨h1, h2, h3, h4, h5, h6, h7, h8⟩

/-- The invariant holds along any whole trace. -/
theorem streamInv_runAll (s : MicroStream) (ops : List StreamOp) (h : streamInv s) :
    streamInv (streamRunAll s ops) := by
  induction ops generalizing s with
  | nil => exact h
  | cons op rest ih => exact ih (streamRun s op) (streamInv_run s op h)

/-- One observed step never decreases the cumulative total. -/
theorem streamRun_mono (s : MicroStream) (op : StreamOp) :
    s.totalPaid ≤ (streamRun s op).totalPaid := by
  cases op with
  | start =>
      by_cases hc : s.sub = .awaitingStart
      · rw [streamRun_start_ok s hc]
      · rw [streamRun_start_fail s hc]
  | recordTick amount =>
      by_cases hne : s.sub ≠ .active
      · rw [streamRun_tick_fail1 s amount hne]
      · by_cases hp : (!s.pendingTick) = true
        · rw [streamRun_tick_fail2 s amount hne hp]
        · by_cases hamt : amount ≠ s.rateUsdc
          · rw [streamRun_tick_fail3 s amount hne hp hamt]
          · cases hr : reachedMaxAfter s with
            | false =>
                rw [streamRun_tick_ok_open s amount hne hp hamt hr]
                exact Nat.le_add_right _ _
            | true =>
                rw [streamRun_tick_ok_capped s amount hne hp hamt hr]
                exact Nat.le_add_right _ _
  | pause =>
      by_cases hc : s.sub = .active
      · rw [streamRun_pause_ok s hc]
      · rw [streamRun_pause_fail s hc]
  | resume =>
      by_cases hc : s.sub = .paused
      · rw [streamRun_resume_ok s hc]
      · rw [streamRun_resume_fail s hc]
  | stop =>
      by_cases hc : s.sub = .stopped
      · rw [streamRun_stop_already s hc]
      · by_cases hc2 : s.sub = .active ∨ s.sub = .paused
        · rw [streamRun_stop_ok s hc hc2]
        · rw [streamRun_stop_fail s hc hc2]

/-- One observed step never changes the agreed rate or the cap. -/
theorem streamRun_rate_max (s : MicroStream) (op : StreamOp) :
    (streamRun s op).rateUsdc = s.rateUsdc ∧ (streamRun s op).maxTicks = s.maxTicks := by
  cases op with
  | start =>
      by_cases hc : s.sub = .awaitingStart
      · rw [streamRun_start_ok s hc]
        exact ⟨rfl, rfl⟩
      · rw [streamRun_start_fail s hc]
        exact ⟨rfl, rfl⟩
  | recordTick amount =>
      by_cases hne : s.sub ≠ .active
      · rw [streamRun_tick_fail1 s amount hne]
        exact ⟨rfl, rfl⟩
      · by_cases hp : (!s.pendingTick) = true
        · rw [streamRun_tick_fail2 s amount hne hp]
          exact ⟨rfl, rfl⟩
        · by_cases hamt : amount ≠ s.rateUsdc
          · rw [streamRun_tick_fail3 s amount hne hp hamt]
            exact ⟨rfl, rfl⟩
          · cases hr : reachedMaxAfter s with
            | false =>
                rw [streamRun_tick_ok_open s amount hne hp hamt hr]
                exact ⟨rfl, rfl⟩
            | true =>
                rw [streamRun_tick_ok_capped s amount hne hp hamt hr]
                exact ⟨rfl, rfl⟩
  | pause =>
      by_cases hc : s.sub = .active
      · rw [streamRun_pause_ok s hc]
        exact ⟨rfl, rfl⟩
      · rw [streamRun_pause_fail s hc]
        exact ⟨rfl, rfl⟩
  | resume =>
      by_cases hc : s.sub = .paused
      · rw [streamRun_resume_ok s hc]
        exact ⟨rfl, rfl⟩
      · rw [streamRun_resume_fail s hc]
        exact ⟨rfl, rfl⟩
  | stop =>
      by_cases hc : s.sub = .stopped
      · rw [streamRun_stop_already s hc]
        exact ⟨rfl, rfl⟩
      · by_cases hc2 : s.sub = .active ∨ s.sub = .paused
        · rw [streamRun_stop_ok s hc hc2]
          exact ⟨rfl, rfl⟩
        · rw [streamRun_stop_fail s hc hc2]
          exact ⟨rfl, rfl⟩

/-- The agreed rate and the cap never change along a trace. -/
theorem streamRunAll_rate_max (s : MicroStream) (ops : List StreamOp) :
    (streamRunAll s ops).rateUsdc = s.rateUsdc
    ∧ (streamRunAll s ops).maxTicks = s.maxTicks := by
  induction ops generalizing s with
  | nil => exact ⟨rfl, rfl⟩
  | cons op rest ih =>
      obtain ⟨ih1, ih2⟩ := ih (streamRun s op)
      obtain ⟨e1, e2⟩ := streamRun_rate_max s op
      exact ⟨ih1.trans e1, ih2.trans e2⟩

/-- Claim C6 (the backend stream controller, modelled from the spec): for
every `MICRO_TRANSFER` stream, (1) along any trace of operations from a
fresh stream the cumulative paid amount equals the sum of the verified
tick amounts and equals the tick count times the agreed rate, every
verified tick matches the agreed rate, and the tick count never exceeds
the max-tick cap when one is set; (2) the cumulative amount is
monotonically non-decreasing along any trace; (3) a successful
`record_stream_tick` increments the tick count by exactly one, adds
exactly the agreed per-interval rate, and appends a verified amount equal
to the rate; (4) a failed tick leaves the stream unchanged. -/
theorem C6_micro_transfer_stream_bookkeeping :
    (∀ (rate : Nat) (mt : Option Nat) (ops : List StreamOp),
       (∀ m, mt = some m → 1 ≤ m) →
       (streamRunAll (mkStream rate mt) ops).totalPaid
           = (streamRunAll (mkStream rate mt) ops).verifiedTicks.sum
       ∧ (streamRunAll (mkStream rate mt) ops).totalPaid
           = (streamRunAll (mkStream rate mt) ops).tickCount * rate
       ∧ (∀ t ∈ (streamRunAll (mkStream rate mt) ops).verifiedTicks, t = rate)
       ∧ (∀ m, mt = some m → (streamRunAll (mkStream rate mt) ops).tickCount ≤ m))
  ∧ (∀ (s : MicroStream) (ops : List StreamOp),
       s.totalPaid ≤ (streamRunAll s ops).totalPaid)
  ∧ (∀ (s s2 : MicroStream) (amt : Nat),
       streamStep s (.recordTick amt) = .ok s2 →
       s2.tickCount = s.tickCount + 1 ∧ s2.totalPaid = s.totalPaid + s.rateUsdc
       ∧ s2.verifiedTicks = s.verifiedTicks ++ [amt] ∧ amt = s.rateUsdc)
  ∧ (∀ (s : MicroStream) (amt : Nat) (e : StreamErr),
       streamStep s (.recordTick amt) = .error e →
       streamRun s (.recordTick amt) = s) := by
  refine ⟨?_, ?_, ?_, ?_⟩
  · intro rate mt ops hwf
    obtain ⟨hr, hmxe⟩ := streamRunAll_rate_max (mkStream rate mt) ops
    obtain ⟨h1, h2, h3, h4, h5, _, _, _⟩ :=
      streamInv_runAll (mkStream rate mt) ops (streamInv_mkStream rate mt hwf)
    refine ⟨h1, ?_, ?_, ?_⟩
    · rw [h2, hr]
      rfl
    · intro t ht
      rw [h3 t ht, hr]
      rfl
    · intro m hm
      refine h5 m ?_
      rw [hmxe]
      exact hm
  · intro s ops
    induction ops generalizing s with
    | nil => exact Nat.le_refl _
    | cons op rest ih =>
        exact Nat.le_trans (streamRun_mono s op) (ih (streamRun s op))
  · intro s s2 amt h
    simp only [streamStep] at h
    split_ifs at h with hne hp hamt hcap
    · cases h
      exact ⟨rfl, rfl, rfl, not_not.mp hamt⟩
    · cases h
      exact ⟨rfl, rfl, rfl, not_not.mp hamt⟩
  · intro s amt e h
    unfold streamRun
    rw [h]

/-- Witness for C6 at a concrete trace: rate 10, cap 2 ticks; start, one
bad tick (amount 5, rejected), two good ticks (the second reaches the
cap and auto-stops the stream). -/
theorem C6_witness :
    (streamRunAll (mkStream 10 (some 2))
        [.start, .recordTick 5, .recordTick 10, .recordTick 10]).totalPaid
      = (streamRunAll (mkStream 10 (some 2))
        [.start, .recordTick 5, .recordTick 10, .recordTick 10]).verifiedTicks.sum
  ∧ (streamRunAll (mkStream 10 (some 2))
        [.start, .recordTick 5, .recordTick 10, .recordTick 10]).totalPaid
      = (streamRunAll (mkStream 10 (some 2))
        [.start, .recordTick 5, .recordTick 10, .recordTick 10]).tickCount * 10
  ∧ (∀ t ∈ (streamRunAll (mkStream 10 (some 2))
        [.start, .recordTick 5, .recordTick 10, .recordTick 10]).verifiedTicks, t = 10)
  ∧ (∀ m, (some 2 : Option Nat) = some m →
      (streamRunAll (mkStream 10 (some 2))
        [.start, .recordTick 5, .recordTick 10, .recordTick 10]).tickCount ≤ m) :=
  C6_micro_transfer_stream_bookkeeping.1 10 (some 2)
    [.start, .recordTick 5, .recordTick 10, .recordTick 10]
    (fun m hm => by cases hm; decide)

end HumanPages
